import Mathlib

/-!
# A verification development for the hugo-mcp command dispatcher

Shallow embedding of the repository (src/main.py, src/utils/*.py): an MCP
server exposing Hugo site-generator operations.  External collaborators
(the `hugo`/`git`/`netlify`/`vercel` binaries, the themes-catalog web
site, the HTML scraper, the operating system) are modelled as oracles in
an `Env` structure; the mutable state an operation touches (current
working directory, tracked content files, the project configuration
files, live preview-server pids) is a `World` structure, and side
effects are logged in an `Effect` list so that "performs no mutation"
style properties can be stated.
-/

namespace HugoMcp

/-! ### Python string primitives

The operations do textual surgery with Python `str` methods.  We model
the ones used (`strip`, `startswith`, `endswith`, `in`, `replace`,
`lower`, `split`) over `List Char` data so proofs can use list lemmas.
-/

/-- The characters Python's default `str.strip()` removes. -/
def isPySpace (c : Char) : Bool :=
  c == ' ' || c == '\t' || c == '\n' || c == '\r' || c == '\x0b' || c == '\x0c'

/-- Python `str.strip()`: drop leading and trailing whitespace. -/
def pyStrip (s : String) : String :=
  String.mk (((s.data.dropWhile isPySpace).reverse.dropWhile isPySpace).reverse)

/-- Python `str.startswith(p)`. -/
def pyStartsWith (s p : String) : Bool := decide (p.data <+: s.data)

/-- Python `p in s` (substring containment). -/
def pyContains (s p : String) : Bool := decide (p.data <:+: s.data)

/-- Python `str.endswith(p)`. -/
def pyEndsWith (s p : String) : Bool := decide (p.data <:+ s.data)

/-- Python `str.lower()` (ASCII case folding, which covers every string
the operations compare). -/
def pyLower (s : String) : String := String.mk (s.data.map Char.toLower)

/-- Python `str.replace(pat, rep)` on character lists: replace every
occurrence, scanning left to right, with explicit fuel so the
recursion is structural (each step consumes at least one character, so
`s.length` fuel always suffices).  The repository never calls
`replace` with an empty pattern; on an empty pattern this model is the
identity. -/
def pyReplaceFuel (pat rep : List Char) : Nat → List Char → List Char
  | 0, s => s
  | _ + 1, [] => []
  | fuel + 1, c :: rest =>
    if pat ≠ [] ∧ pat <+: (c :: rest) then
      rep ++ pyReplaceFuel pat rep fuel ((c :: rest).drop pat.length)
    else
      c :: pyReplaceFuel pat rep fuel rest

/-- Python `s.replace(pat, rep)`. -/
def pyReplace (s pat rep : String) : String :=
  String.mk (pyReplaceFuel pat.data rep.data s.data.length s.data)

/-- Python `repr` of a list of strings, as it appears in
`str(CalledProcessError)` (e.g. `['brew', 'install', 'hugo']`). -/
def pyReprList (cmd : List String) : String :=
  "[" ++ String.intercalate ", " (cmd.map (fun a => "'" ++ a ++ "'")) ++ "]"

/-- `str(subprocess.CalledProcessError(code, cmd))`. -/
def cpeStr (cmd : List String) (code : Nat) : String :=
  "Command '" ++ pyReprList cmd ++ "' returned non-zero exit status "
    ++ toString code ++ "."

/-- `str(FileNotFoundError)` as raised by `subprocess` for a missing
executable. -/
def fnfStr (exe : String) : String :=
  "[Errno 2] No such file or directory: '" ++ exe ++ "'"

/-- `str(PermissionError)` as raised by `os.kill` without permission. -/
def permStr : String := "[Errno 1] Operation not permitted"

/-- `os.path.basename`: the part after the last `/`. -/
def pyBasename (s : String) : String := (s.splitOn "/").getLastD ""

/-- `os.path.basename(os.path.normpath(s))`: last nonempty path
component (`normpath` removes trailing slashes and duplicate slashes). -/
def pyBasenameNorm (s : String) : String :=
  (((s.splitOn "/").filter (fun c => c ≠ "")).getLastD s)

/-- Resolve a possibly relative path against a directory, as the
operating system does after `os.chdir` (path normalization beyond
absolute/relative is not modelled; the repository only joins clean
segments). -/
def joinPath (cwd rel : String) : String :=
  if pyStartsWith rel "/" then rel else cwd ++ "/" ++ rel

/-! ### Exceptions and subprocess outcomes -/

/-- The Python exceptions the operations raise or catch. -/
inductive PyExc where
  | cpe (cmd : List String) (returncode : Nat) (stderrTxt : String)
  | fnf (exe : String)
  | procLookup (pid : Nat)
  | otherErr (msg : String)
deriving DecidableEq, Repr

/-- Python `str(e)` for the exceptions above. -/
def pyStrExc : PyExc → String
  | .cpe cmd code _ => cpeStr cmd code
  | .fnf exe => fnfStr exe
  | .procLookup _ => "[Errno 3] No such process"
  | .otherErr m => m

/-- Outcome of one `subprocess.run`/`Popen` invocation, as decided by
the environment: the process ran and exited zero (with captured stdout
and stderr), ran and exited non-zero, or the executable was not found
on the search path. -/
inductive RunOutcome where
  | ok (stdoutTxt stderrTxt : String)
  | failed (returncode : Nat) (stdoutTxt stderrTxt : String)
  | notFound
deriving DecidableEq, Repr

/-- Outcome of `subprocess.Popen` for the long-running preview server:
the process spawned (with a pid, whether it already died during the
2-second grace period, and its stderr if so), or the executable was
missing. -/
inductive SpawnOutcome where
  | spawned (pid : Nat) (earlyDeath : Bool) (stderrTxt : String)
  | exeMissing
deriving DecidableEq, Repr

/-- Outcome of `requests.get`: an HTTP response with a status code and
body, a raised `requests.RequestException`, or another raised
exception. -/
inductive HttpRes where
  | resp (statusCode : Nat) (body : String)
  | raiseReq (msg : String)
  | raiseOther (msg : String)
deriving DecidableEq, Repr

/-! ### Scraper oracle shapes

The HTML selectors are treated as swappable external detail (spec §1,
§4.4): the environment hands back, per fetched page body, the raw
selector results; the code's loop over them (the `continue`s, the URL
prefixing, the truthiness checks) is translated from the source.
-/

/-- One `li` item of the themes listing: the text of the matched name
element, the `href` of the matched `/themes/` link, and the `src` of
the matched image, each `none` when the selector found nothing. -/
structure RawItem where
  nameText : Option String
  linkHref : Option String
  imgSrc : Option String
deriving DecidableEq, Repr

/-- Raw selector results of a theme detail page. -/
structure DetailRaw where
  descText : Option String
  featureTexts : List String
  tagTexts : List String
  githubHrefs : List String
  anyHrefs : List String
  installRaw : Option String
deriving DecidableEq, Repr

/-! ### Data model: themes, result envelopes, effects, state -/

/-- A theme record from the listing page (spec §3). -/
structure Theme where
  name : String
  url : String
  image : Option String
deriving DecidableEq, Repr

/-- A theme record extended with detail-page fields. -/
structure ThemeDetail where
  base : Theme
  description : String
  features : List String
  tags : List String
  github_url : Option String
  demo_url : Option String
  installation : String
deriving DecidableEq, Repr

/-- A payload value of a result envelope (one constructor per value
shape the operations put into their dicts). -/
inductive Val where
  | vs (v : String)
  | vn (v : Nat)
  | vb (v : Bool)
  | vthemes (ts : List Theme)
  | vtheme (t : Theme)
  | vdetail (d : ThemeDetail)
  | vstrs (vs : List String)
  | vopts (buildDrafts buildFuture buildExpired : Bool)
deriving DecidableEq, Repr

/-- The uniform result envelope (spec §3): a status string
(`"success"`, `"error"` or `"partial"`), an optional `message`, and the
remaining named payload fields of the returned dict. -/
structure Envelope where
  status : String
  message : Option String := none
  payload : List (String × Val) := []
deriving DecidableEq, Repr

/-- Look up a payload field. -/
def payloadGet (e : Envelope) (k : String) : Option Val :=
  (e.payload.find? (fun kv => kv.1 == k)).map (fun kv => kv.2)

/-- The themes list carried by an envelope (empty when absent). -/
def themesOf (e : Envelope) : List Theme :=
  match payloadGet e "themes" with
  | some (.vthemes ts) => ts
  | _ => []

/-- The envelope invariant of spec §3 for a promised payload-key set:
`status=error` implies a `message` is present, `status=success` implies
no message (hence no failure-describing message), and payload fields
are only the promised ones. -/
def envInv (e : Envelope) (promised : List String) : Prop :=
  (e.status = "error" → e.message.isSome = true)
    ∧ (e.status = "success" → e.message = none)
    ∧ ∀ k ∈ e.payload.map (fun kv => kv.1), k ∈ promised

/-- A logged side effect of an operation. -/
inductive Effect where
  | mkdirE (path : String)
  | chdirE (path : String)
  | runCmdE (cmd : List String)
  | writeFileE (path : String)
  | killE (pid : Nat)
deriving DecidableEq, Repr

/-- A YAML configuration file, reduced to the keys the operations
touch: the `theme` key and the `module.imports` path list (dict keys
are unique by construction, matching `yaml.safe_load`'s dict
semantics; unrelated keys are preserved untouched by the code and are
not modelled). -/
structure YamlCfg where
  theme : Option String := none
  imports : List String := []
deriving DecidableEq, Repr

/-- The mutable state an invocation touches.  Content files are an
association list from site-relative path to file text (directories
exist implicitly through the files below them); the four recognized
configuration files are tracked individually; `goMod` is whether
`go.mod` exists in the site; `running` is the set of live preview
processes. -/
structure World where
  cwd : String := "/"
  effects : List Effect := []
  files : List (String × String) := []
  configToml : Option (List String) := none
  hugoToml : Option (List String) := none
  configYaml : Option YamlCfg := none
  hugoYaml : Option YamlCfg := none
  goMod : Bool := false
  running : List Nat := []
deriving DecidableEq, Repr

/-- The read-only oracles: subprocess execution, `shutil.which`,
`platform.system().lower()`, filesystem queries, HTTP fetches, scraper
results, the effect of `hugo new` on a content file, `Popen` spawning,
and signal permissions/behaviour of processes. -/
structure Env where
  run : List String → RunOutcome
  which : String → Bool
  systemName : String
  isDir : String → Bool
  pathExists : String → Bool
  listDir : String → List String
  httpGet : String → HttpRes
  themeItems : String → List RawItem
  detailScrape : String → DetailRaw
  hugoNew : String → Option String → RunOutcome × Option String
  spawn : List String → SpawnOutcome
  allowSignal : Nat → Bool
  exitsOnTerm : Nat → Bool

/-- `os.chdir`. -/
def chdirW (w : World) (p : String) : World :=
  { w with cwd := p, effects := w.effects ++ [.chdirE p] }

/-- Update (or create) a tracked file. -/
def assocSet (l : List (String × String)) (k v : String) :
    List (String × String) :=
  if l.any (fun kv => kv.1 == k) then
    l.map (fun kv => if kv.1 == k then (k, v) else kv)
  else l ++ [(k, v)]

/-- Content of a tracked file. -/
def fileGet (w : World) (p : String) : Option String :=
  (w.files.find? (fun kv => kv.1 == p)).map (fun kv => kv.2)

/-- One checked subprocess step (`subprocess.run(cmd, check=True)`):
logs the command when the process actually ran, and raises
`CalledProcessError` on a non-zero exit or `FileNotFoundError` when
the executable is absent. -/
def runStep (env : Env) (cmd : List String) (w : World) :
    Except PyExc (String × String) × World :=
  match env.run cmd with
  | .ok o e => (.ok (o, e), { w with effects := w.effects ++ [.runCmdE cmd] })
  | .failed c _ e =>
      (.error (.cpe cmd c e), { w with effects := w.effects ++ [.runCmdE cmd] })
  | .notFound => (.error (.fnf (cmd.headD "")), w)

/-! ### Environment diagnostics (src/main.py, src/utils/system.py) -/

/-- `check_hugo_installation` (src/main.py:18, src/utils/system.py:18):
runs `hugo version`; `CalledProcessError` and `FileNotFoundError` are
caught and converted. -/
def check_hugo_installation (env : Env) (w : World) : Envelope × World :=
  match runStep env ["hugo", "version"] w with
  | (.ok (out, _), w') =>
      (⟨"success", none, [("version", .vs (pyStrip out))]⟩, w')
  | (.error (.cpe cmd code e), w') =>
      (⟨"error", some ("Hugo is not installed or not in PATH: "
          ++ pyStrExc (.cpe cmd code e)), []⟩, w')
  | (.error _, w') =>
      (⟨"error", some "Hugo is not installed or not in PATH", []⟩, w')

/-- `install_hugo` (src/main.py:40): installs Hugo through the
platform's package manager.  The surrounding `try` catches ONLY
`subprocess.CalledProcessError`; any other exception (notably the
`FileNotFoundError` of a missing package-manager executable) escapes
the operation, which the `Except` result type records. -/
def install_hugo (env : Env) (w : World) : Except PyExc Envelope × World :=
  if env.systemName = "darwin" then
    match runStep env ["brew", "install", "hugo"] w with
    | (.ok _, w') => (.ok ⟨"success", some "Hugo installed via Homebrew", []⟩, w')
    | (.error (.cpe c n s), w') =>
        (.ok ⟨"error", some ("Installation failed: " ++ pyStrExc (.cpe c n s)), []⟩, w')
    | (.error e, w') => (.error e, w')
  else if env.systemName = "linux" then
    if env.which "apt" then
      match runStep env ["sudo", "apt", "update"] w with
      | (.ok _, w1) =>
        (match runStep env ["sudo", "apt", "install", "-y", "hugo"] w1 with
         | (.ok _, w2) => (.ok ⟨"success", some "Hugo installed via apt", []⟩, w2)
         | (.error (.cpe c n s), w2) =>
             (.ok ⟨"error", some ("Installation failed: " ++ pyStrExc (.cpe c n s)), []⟩, w2)
         | (.error e, w2) => (.error e, w2))
      | (.error (.cpe c n s), w1) =>
          (.ok ⟨"error", some ("Installation failed: " ++ pyStrExc (.cpe c n s)), []⟩, w1)
      | (.error e, w1) => (.error e, w1)
    else if env.which "dnf" then
      match runStep env ["sudo", "dnf", "install", "-y", "hugo"] w with
      | (.ok _, w') => (.ok ⟨"success", some "Hugo installed via dnf", []⟩, w')
      | (.error (.cpe c n s), w') =>
          (.ok ⟨"error", some ("Installation failed: " ++ pyStrExc (.cpe c n s)), []⟩, w')
      | (.error e, w') => (.error e, w')
    else if env.which "yum" then
      match runStep env ["sudo", "yum", "install", "-y", "hugo"] w with
      | (.ok _, w') => (.ok ⟨"success", some "Hugo installed via yum", []⟩, w')
      | (.error (.cpe c n s), w') =>
          (.ok ⟨"error", some ("Installation failed: " ++ pyStrExc (.cpe c n s)), []⟩, w')
      | (.error e, w') => (.error e, w')
    else
      (.ok ⟨"error", some
        "Unsupported Linux distribution. Please install Hugo manually.", []⟩, w)
  else if env.systemName = "windows" then
    (.ok ⟨"error", some
      ("Windows installation not supported via this tool. Please install Hugo "
        ++ "manually from https://gohugo.io/installation/windows/"), []⟩, w)
  else
    (.ok ⟨"error", some ("Unsupported operating system: " ++ env.systemName), []⟩, w)

/-! ### Site lifecycle (src/utils/site.py, src/main.py) -/

/-- Whether the directory listing is exactly `[".git"]`
(`len(contents) == 1 and contents[0].name == ".git"`). -/
def hasOnlyGit (contents : List String) : Bool :=
  match contents with
  | [x] => x == ".git"
  | _ => false

/-- `create_site` (src/utils/site.py:8).  `target_path.mkdir(parents=True,
exist_ok=True)` mutates only when the target does not yet exist, and the
listing of a just-created directory is empty. -/
def create_site (env : Env) (site_abs_path site_name : String)
    (force in_current_dir : Bool) (w : World) : Envelope × World :=
  let target := if in_current_dir then site_abs_path
                else site_abs_path ++ "/" ++ site_name
  let w1 := if env.pathExists target then w
            else { w with effects := w.effects ++ [.mkdirE target] }
  let contents := if env.pathExists target then env.listDir target else []
  let isEmpty := contents.isEmpty
  if in_current_dir then
    if ¬ (isEmpty || hasOnlyGit contents) ∧ ¬ force then
      (⟨"error", some ("Current directory is not empty (contains files other "
          ++ "than .git). Use force=True to override."), []⟩, w1)
    else
      let w2 := chdirW w1 target
      let cmd := ["hugo", "new", "site", ".", "--force"]
      match runStep env cmd w2 with
      | (.ok (out, _), w3) =>
          (⟨"success", some (pyStrip out),
            [("path", .vs target), ("in_current_dir", .vb true)]⟩, w3)
      | (.error (.cpe c n s), w3) =>
          (⟨"error", some ("Failed to create Hugo site: "
              ++ pyStrExc (.cpe c n s)), []⟩, w3)
      | (.error e, w3) =>
          (⟨"error", some ("Unexpected error: " ++ pyStrExc e), []⟩, w3)
  else
    if (¬ contents.isEmpty ∧ ¬ isEmpty ∧ hasOnlyGit contents = false) ∧ ¬ force then
      (⟨"error", some ("Directory '" ++ site_name ++ "' already exists and is "
          ++ "not empty. Use force=True to override."), []⟩, w1)
    else
      let w2 := chdirW w1 site_abs_path
      let cmd := ["hugo", "new", "site", site_name]
                   ++ (if force then ["--force"] else [])
      match runStep env cmd w2 with
      | (.ok (out, _), w3) =>
          (⟨"success", some (pyStrip out),
            [("path", .vs target), ("in_current_dir", .vb false)]⟩, w3)
      | (.error (.cpe c n s), w3) =>
          (⟨"error", some ("Failed to create Hugo site: "
              ++ pyStrExc (.cpe c n s)), []⟩, w3)
      | (.error e, w3) =>
          (⟨"error", some ("Unexpected error: " ++ pyStrExc e), []⟩, w3)

/-- The front-end `create_site` tool (src/main.py:293).  Note that its
pre-check tests `Path(site_name).exists()`, which resolves `site_name`
against the process's current working directory, not against
`site_abs_path`; the generator is then invoked with
`cwd=site_abs_path`. -/
def create_site_main (env : Env) (site_abs_path site_name : String)
    (force : Bool) (w : World) : Envelope × World :=
  if env.pathExists (joinPath w.cwd site_name) ∧ ¬ force then
    (⟨"error", some ("Directory '" ++ site_name
        ++ "' already exists. Use force=True to overwrite."), []⟩, w)
  else
    match runStep env ["hugo", "new", "site", site_name] w with
    | (.error (.cpe c n s), w1) =>
        (⟨"error", some ("Failed to create Hugo site: "
            ++ pyStrExc (.cpe c n s)), []⟩, w1)
    | (.error e, w1) =>
        (⟨"error", some ("Unexpected error: " ++ pyStrExc e), []⟩, w1)
    | (.ok _, w1) =>
      let w2 := chdirW w1 (site_abs_path ++ "/" ++ site_name)
      match runStep env ["git", "init"] w2 with
      | (.ok _, w3) =>
          (⟨"success", some ("Hugo site '" ++ site_name
              ++ "' created successfully at " ++ site_abs_path), []⟩, w3)
      | (.error (.cpe c n s), w3) =>
          (⟨"error", some ("Failed to create Hugo site: "
              ++ pyStrExc (.cpe c n s)), []⟩, w3)
      | (.error e, w3) =>
          (⟨"error", some ("Unexpected error: " ++ pyStrExc e), []⟩, w3)

/-- `os.path.abspath(rel)` with the current directory `cwd`. -/
def absPath (cwd rel : String) : String := joinPath cwd rel

/-- The `hugo` build command assembled by `build_site`. -/
def hugoBuildCmd (destination : String) (clean minify : Bool) : List String :=
  ["hugo", "--destination", destination]
    ++ (if clean then ["--cleanDestinationDir"] else [])
    ++ (if minify then ["--minify"] else [])

/-- `build_site` (src/utils/site.py:147 and src/main.py:455, identical
code). -/
def build_site (env : Env) (site_path destination : String)
    (clean_destination minify : Bool) (w : World) : Envelope × World :=
  if ¬ env.isDir site_path then
    (⟨"error", some ("Site path '" ++ site_path ++ "' does not exist"), []⟩, w)
  else
    let w1 := chdirW w site_path
    let cmd := hugoBuildCmd destination clean_destination minify
    match runStep env cmd w1 with
    | (.ok (out, _), w2) =>
        (⟨"success", none,
          [("destination", .vs (absPath site_path destination)),
           ("output", .vs out)]⟩, w2)
    | (.error (.cpe _ _ stderrTxt), w2) =>
        (⟨"error", some ("Build failed: " ++ stderrTxt), []⟩, w2)
    | (.error e, w2) =>
        (⟨"error", some ("Unexpected error: " ++ pyStrExc e), []⟩, w2)

/-- The `hugo server` command of `start_preview` (src/utils/site.py:83;
the src/main.py:389 variant differs only by omitting `--openBrowser`). -/
def hugoServerCmd (port : Nat) (bind : String)
    (build_drafts build_future build_expired : Bool) : List String :=
  ["hugo", "server", "--port", toString port, "--bind", bind, "--openBrowser"]
    ++ (if build_drafts then ["--buildDrafts"] else [])
    ++ (if build_future then ["--buildFuture"] else [])
    ++ (if build_expired then ["--buildExpired"] else [])

/-- `start_preview` (src/utils/site.py:83): spawns the server, waits the
grace period, and polls; a process that already exited is a failure, an
alive one is detached and its pid handed to the caller (only then is it
a live preview server, recorded in `running`). -/
def start_preview (env : Env) (site_path : String) (port : Nat) (bind : String)
    (build_drafts build_future build_expired : Bool) (w : World) :
    Envelope × World :=
  if ¬ env.isDir site_path then
    (⟨"error", some ("Site path '" ++ site_path ++ "' does not exist"), []⟩, w)
  else
    let w1 := chdirW w site_path
    let cmd := hugoServerCmd port bind build_drafts build_future build_expired
    match env.spawn cmd with
    | .exeMissing =>
        (⟨"error", some ("Unexpected error: " ++ fnfStr "hugo"), []⟩, w1)
    | .spawned pid earlyDeath stderrTxt =>
      let w2 := { w1 with effects := w1.effects ++ [.runCmdE cmd] }
      if earlyDeath then
        (⟨"error", some ("Server failed to start: " ++ stderrTxt), []⟩, w2)
      else
        (⟨"success", none,
          [("url", .vs ("http://" ++ bind ++ ":" ++ toString port)),
           ("pid", .vn pid),
           ("options", .vopts build_drafts build_future build_expired)]⟩,
         { w2 with running := w2.running ++ [pid] })

/-- `stop_preview` (src/utils/site.py:192 and src/main.py:1065,
identical code): sends SIGTERM to the given pid, whatever it is; a pid
with no live process raises `ProcessLookupError` (caught), a process
the caller may not signal raises `PermissionError` (caught by the
generic handler).  Whether a signalled process actually exits is up to
the process (`exitsOnTerm`); the code neither waits nor escalates. -/
def stop_preview (env : Env) (pid : Nat) (w : World) : Envelope × World :=
  if w.running.contains pid then
    if env.allowSignal pid then
      (⟨"success", some ("Server with PID " ++ toString pid ++ " stopped"), []⟩,
       { w with effects := w.effects ++ [.killE pid],
                running := if env.exitsOnTerm pid then
                             w.running.filter (fun q => q ≠ pid)
                           else w.running })
    else
      (⟨"error", some ("Failed to stop server: " ++ permStr), []⟩, w)
  else
    (⟨"error", some ("Process with PID " ++ toString pid ++ " not found"), []⟩, w)

/-! ### Content authoring (src/utils/content.py, src/main.py) -/

/-- `create_post` (src/utils/content.py:6 and src/main.py:336, identical
code): runs `hugo new {type}/{title}.md` (its effect on the content file
is the `hugoNew` oracle: the run outcome plus the file's content
afterwards), then textually patches the draft marker of the produced
file to match the requested flag. -/
def create_post (env : Env) (site_path post_title content_type : String)
    (draft : Bool) (date : Option String) (w : World) : Envelope × World :=
  if ¬ env.isDir site_path then
    (⟨"error", some ("Site path '" ++ site_path ++ "' does not exist"), []⟩, w)
  else
    let w1 := chdirW w site_path
    let post_path := "content/" ++ content_type ++ "/" ++ post_title ++ ".md"
    let cmd := ["hugo", "new", content_type ++ "/" ++ post_title ++ ".md"]
                 ++ (match date with | some d => ["--date", d] | none => [])
    match env.hugoNew post_path (fileGet w1 post_path) with
    | (.notFound, _) =>
        (⟨"error", some ("Unexpected error: " ++ fnfStr "hugo"), []⟩, w1)
    | (.failed code _ _, newContent) =>
        let w2 := { w1 with effects := w1.effects ++ [.runCmdE cmd],
                            files := match newContent with
                                     | some c => assocSet w1.files post_path c
                                     | none => w1.files }
        (⟨"error", some ("Failed to create post: "
            ++ pyStrExc (.cpe cmd code "")), []⟩, w2)
    | (.ok _ _, newContent) =>
      let w2 := { w1 with effects := w1.effects ++ [.runCmdE cmd],
                          files := match newContent with
                                   | some c => assocSet w1.files post_path c
                                   | none => w1.files }
      match newContent with
      | none =>
          (⟨"success", none, [("file", .vs post_path), ("draft", .vb draft)]⟩, w2)
      | some content =>
        let patched := if draft then pyReplace content "draft: false" "draft: true"
                       else pyReplace content "draft: true" "draft: false"
        let w3 := { w2 with files := assocSet w2.files post_path patched,
                            effects := w2.effects ++ [.writeFileE post_path] }
        (⟨"success", none, [("file", .vs post_path), ("draft", .vb draft)]⟩, w3)

/-- The walk of `list_content`: tracked files under `content_dir` with a
recognized extension, as paths relative to `content/`. -/
def listContentFiles (files : List (String × String)) (content_dir : String) :
    List String :=
  (files.filter (fun kv =>
      pyStartsWith kv.1 (content_dir ++ "/")
        && (pyEndsWith kv.1 ".md" || pyEndsWith kv.1 ".mdx"
              || pyEndsWith kv.1 ".html"))).map
    (fun kv => String.mk (kv.1.data.drop ("content/".length)))

/-- `list_content` (src/utils/content.py:60 and src/main.py:1026,
identical code).  `os.path.isdir(content_dir)` holds when some tracked
file lies below it (directories exist implicitly in the file model). -/
def list_content (env : Env) (site_path : String)
    (content_type : Option String) (w : World) : Envelope × World :=
  if ¬ env.isDir site_path then
    (⟨"error", some ("Site path '" ++ site_path ++ "' does not exist"), []⟩, w)
  else
    let w1 := chdirW w site_path
    let content_dir := match content_type with
                       | some t => "content/" ++ t
                       | none => "content"
    if ¬ w1.files.any (fun kv => pyStartsWith kv.1 (content_dir ++ "/")) then
      (⟨"error", some ("Content directory '" ++ content_dir
          ++ "' does not exist"), []⟩, w1)
    else
      (⟨"success", none,
        [("content", .vstrs (listContentFiles w1.files content_dir))]⟩, w1)

/-! ### Theme management (src/utils/theme.py, src/main.py) -/

/-- The per-item loop body of `list_themes` (src/utils/theme.py:28):
skip items without a name element or a `/themes/` link, build the
GitHub URL from the link path, and keep the image only when an `img`
element with a truthy (non-empty) `src` is present. -/
def processItems (items : List RawItem) : List Theme :=
  items.filterMap (fun it =>
    match it.nameText with
    | none => none
    | some nm =>
      match it.linkHref with
      | none => none
      | some href =>
        some { name := pyStrip nm,
               url := "https://github.com/gohugoio/hugoThemes/tree/master/themes"
                        ++ href,
               image := match it.imgSrc with
                        | some src =>
                            if src = "" then none
                            else some ("https://themes.gohugo.io" ++ src)
                        | none => none })

/-- `list_themes` (src/utils/theme.py:11 and src/main.py:784, identical
code): fetch the catalog page; a raised `requests.RequestException` and
a non-200 status are converted into error envelopes; the scraped items
(possibly zero) become the themes payload. -/
def list_themes (env : Env) : Envelope :=
  match env.httpGet "https://themes.gohugo.io/" with
  | .raiseReq m => ⟨"error", some ("Network error: " ++ m), []⟩
  | .raiseOther m => ⟨"error", some ("Failed to list themes: " ++ m), []⟩
  | .resp code body =>
    if code ≠ 200 then
      ⟨"error", some ("Failed to fetch themes: HTTP " ++ toString code), []⟩
    else
      let themes := processItems (env.themeItems body)
      ⟨"success", none,
       [("themes", .vthemes themes), ("count", .vn themes.length)]⟩

/-- The detail-page extraction of `get_theme_details`
(src/utils/theme.py:277): description and installation text default to
`""`, the GitHub link is the first `github.com` href not ending in
`github.com`, the demo link the first href neither on GitHub nor on the
catalog site. -/
def mkDetail (t : Theme) (d : DetailRaw) : ThemeDetail :=
  { base := t,
    description := match d.descText with
                   | some s => pyStrip s
                   | none => "",
    features := d.featureTexts.map pyStrip,
    tags := d.tagTexts.map pyStrip,
    github_url := d.githubHrefs.find? (fun href =>
      pyContains href "github.com" && ¬ pyEndsWith href "github.com"),
    demo_url := d.anyHrefs.find? (fun href =>
      ¬ pyContains href "github.com"
        && ¬ pyStartsWith href "https://themes.gohugo.io"),
    installation := match d.installRaw with
                    | some s => pyStrip s
                    | none => "" }

/-- `get_theme_details` (src/utils/theme.py:240 and src/main.py:1081,
identical code): list the themes, find the requested one
case-insensitively, then fetch and scrape its detail page; a failing
detail fetch degrades to `status=partial` with the listing record. -/
def get_theme_details (env : Env) (theme_name : String) : Envelope :=
  let tl := list_themes env
  if tl.status ≠ "success" then
    ⟨"error", some "Failed to fetch themes list", []⟩
  else
    match (themesOf tl).find? (fun t => pyLower t.name == pyLower theme_name) with
    | none =>
        ⟨"error", some ("Theme '" ++ theme_name
            ++ "' not found on the Hugo themes website"), []⟩
    | some t =>
      let theme_path := (t.url.splitOn "/themes/").getLastD ""
      let detail_url := "https://themes.gohugo.io/themes/" ++ theme_path ++ "/"
      match env.httpGet detail_url with
      | .raiseReq m => ⟨"error", some ("Network error: " ++ m), []⟩
      | .raiseOther m =>
          ⟨"error", some ("Failed to get theme details: " ++ m), []⟩
      | .resp code body =>
        if code ≠ 200 then
          ⟨"partial", some "Could not fetch theme details page",
           [("theme", .vtheme t)]⟩
        else
          ⟨"success", none,
           [("theme", .vdetail (mkDetail t (env.detailScrape body)))]⟩

/-! #### Configuration-file surgery of `install_theme`

A TOML file is its list of physical lines.  The code reads the whole
file, splits on `"\n"`, edits the line list and writes the `"\n"`-join
back; since physical lines contain no newline, splitting the written
text recovers the list, a substring without a newline is contained in
the text iff it is contained in some line, and the single appended
element `"\n[module]"` re-reads as the two lines `""` and `"[module]"`
(the append branch below lists the physical lines directly). -/

/-- Drop every line whose stripped form starts with `theme = `
(src/utils/theme.py:107). -/
def tomlRemoveTheme (ls : List String) : List String :=
  ls.filter (fun l => ¬ pyStartsWith (pyStrip l) "theme = ")

/-- `"[module]" in content` (src/utils/theme.py:114). -/
def tomlHasModule (ls : List String) : Bool :=
  ls.any (fun l => pyContains l "[module]")

/-- `"theme = " in content` (src/utils/theme.py:173). -/
def tomlHasThemeSub (ls : List String) : Bool :=
  ls.any (fun l => pyContains l "theme = ")

/-- The physical lines appended by the module branch
(src/utils/theme.py:115): `"\n[module]"`, `"  [[module.imports]]"` and
the `path` entry. -/
def moduleBlock (url : String) : List String :=
  ["", "[module]", "  [[module.imports]]", "    path = \"" ++ url ++ "\""]

/-- The TOML rewrite of the module strategy (src/utils/theme.py:102):
remove any `theme = ` line, then append one import block — but only
when the original text contains no `[module]` substring. -/
def tomlModuleInstall (ls : List String) (theme_url : String) : List String :=
  let kept := tomlRemoveTheme ls
  if tomlHasModule ls then kept else kept ++ moduleBlock theme_url

/-- The `theme = "name"` assignment line written by the submodule
branch. -/
def tomlThemeLine (theme_name : String) : String :=
  "theme = \"" ++ theme_name ++ "\""

/-- The TOML rewrite of the submodule strategy (src/utils/theme.py:168):
when the text contains `theme = ` anywhere, rewrite every line whose
stripped form starts with `theme = `; otherwise append one assignment
(`content += "\ntheme = ..."` appends one physical line). -/
def tomlSubmoduleInstall (ls : List String) (theme_name : String) :
    List String :=
  if tomlHasThemeSub ls then
    ls.map (fun l => if pyStartsWith (pyStrip l) "theme = " then
                       tomlThemeLine theme_name
                     else l)
  else
    ls ++ [tomlThemeLine theme_name]

/-- The YAML rewrite of the module strategy (src/utils/theme.py:121):
delete the `theme` key, ensure `module.imports` exists, and append the
URL only when no import with that path is present. -/
def yamlModuleInstall (c : YamlCfg) (theme_url : String) : YamlCfg :=
  { theme := none,
    imports := if c.imports.contains theme_url then c.imports
               else c.imports ++ [theme_url] }

/-- The YAML rewrite of the submodule strategy (src/utils/theme.py:189):
set the `theme` key. -/
def yamlSubmoduleInstall (c : YamlCfg) (theme_name : String) : YamlCfg :=
  { c with theme := some theme_name }

/-- Number of import-path entries for `url`: lines whose stripped form
is exactly the `path = "url"` entry the module branch writes. -/
def countTomlImports (ls : List String) (url : String) : Nat :=
  (ls.filter (fun l => pyStrip l == "path = \"" ++ url ++ "\"")).length

/-- The `theme = ` assignment lines of a TOML config. -/
def themeAssignLines (ls : List String) : List String :=
  ls.filter (fun l => pyStartsWith (pyStrip l) "theme = ")

/-- Number of `theme = ` assignment lines. -/
def themeLineCount (ls : List String) : Nat := (themeAssignLines ls).length

/-- A theme URL is well behaved for the TOML surgery when its `path`
entry strips to itself without the indentation, is not mistakable for a
`theme = ` assignment, and is not one of the other lines of the
appended import block.  Every real URL (no leading/trailing whitespace,
no newline) satisfies this; it is decidable, so concrete URLs discharge
it by `decide`. -/
def UrlOk (url : String) : Prop :=
  pyStrip ("    path = \"" ++ url ++ "\"") = "path = \"" ++ url ++ "\""
    ∧ pyStartsWith ("path = \"" ++ url ++ "\"") "theme = " = false
    ∧ ("" : String) ≠ "path = \"" ++ url ++ "\""
    ∧ ("[module]" : String) ≠ "path = \"" ++ url ++ "\""
    ∧ ("[[module.imports]]" : String) ≠ "path = \"" ++ url ++ "\""

instance (url : String) : Decidable (UrlOk url) := by
  unfold UrlOk
  infer_instance

/-- Apply the loop over the four recognized configuration files
(src/utils/theme.py:99): each present file is rewritten by the
format-matching transform. -/
def applyConfigs (w : World) (toml : List String → List String)
    (yaml : YamlCfg → YamlCfg) : World :=
  { w with configToml := w.configToml.map toml,
           hugoToml := w.hugoToml.map toml,
           configYaml := w.configYaml.map yaml,
           hugoYaml := w.hugoYaml.map yaml }

/-- `install_theme` (src/utils/theme.py:71 and src/main.py:851,
identical code).  Module strategy: `hugo mod init` when `go.mod` is
absent (a successful init creates it), `hugo mod get`, then the config
rewrite.  Submodule strategy: create `themes/`, `git submodule add`,
then the config rewrite.  `CalledProcessError` and the generic handler
convert all faults. -/
def install_theme (env : Env) (site_path theme_name theme_url : String)
    (use_modules : Bool) (w : World) : Envelope × World :=
  if ¬ env.isDir site_path then
    (⟨"error", some ("Site path '" ++ site_path ++ "' does not exist"), []⟩, w)
  else
    let w1 := chdirW w site_path
    if use_modules then
      let initStep : Except PyExc Unit × World :=
        if w1.goMod then (.ok (), w1)
        else
          match runStep env ["hugo", "mod", "init",
                             "github.com/" ++ pyBasenameNorm site_path] w1 with
          | (.ok _, w') => (.ok (), { w' with goMod := true })
          | (.error e, w') => (.error e, w')
      match initStep with
      | (.error (.cpe c n s), w') =>
          (⟨"error", some ("Failed to install theme: "
              ++ pyStrExc (.cpe c n s)), []⟩, w')
      | (.error e, w') =>
          (⟨"error", some ("Unexpected error: " ++ pyStrExc e), []⟩, w')
      | (.ok _, w2) =>
        match runStep env ["hugo", "mod", "get", theme_url] w2 with
        | (.error (.cpe c n s), w') =>
            (⟨"error", some ("Failed to install theme: "
                ++ pyStrExc (.cpe c n s)), []⟩, w')
        | (.error e, w') =>
            (⟨"error", some ("Unexpected error: " ++ pyStrExc e), []⟩, w')
        | (.ok _, w3) =>
          let w4 := applyConfigs w3 (tomlModuleInstall · theme_url)
                      (yamlModuleInstall · theme_url)
          (⟨"success", none,
            [("theme", .vs theme_name), ("method", .vs "hugo_modules")]⟩, w4)
    else
      let w2 := if env.pathExists (site_path ++ "/themes") then w1
                else { w1 with effects := w1.effects
                                 ++ [.mkdirE (site_path ++ "/themes")] }
      match runStep env ["git", "submodule", "add", theme_url,
                         "themes/" ++ theme_name] w2 with
      | (.error (.cpe c n s), w') =>
          (⟨"error", some ("Failed to install theme: "
              ++ pyStrExc (.cpe c n s)), []⟩, w')
      | (.error e, w') =>
          (⟨"error", some ("Unexpected error: " ++ pyStrExc e), []⟩, w')
      | (.ok _, w3) =>
        let w4 := applyConfigs w3 (tomlSubmoduleInstall · theme_name)
                    (yamlSubmoduleInstall · theme_name)
        (⟨"success", none,
          [("theme", .vs theme_name), ("method", .vs "git_submodule")]⟩, w4)

/-! ### Deployment (src/utils/deployment.py, src/main.py) -/

/-- `re.search(r"https://[^\s]+", s)`: the first `https://` occurrence
extended over the following non-whitespace characters. -/
def urlFrom : List Char → Option (List Char)
  | [] => none
  | c :: rest =>
    if "https://".data <+: (c :: rest) then
      some ((c :: rest).takeWhile (fun ch => ¬ isPySpace ch))
    else urlFrom rest

/-- The deployment URL extracted from CLI output; the sentinel string
when no URL pattern matches (src/utils/deployment.py:103). -/
def extractUrl (s : String) : String :=
  match urlFrom s.data with
  | some cs => String.mk cs
  | none => "URL not found in output"

/-- The `--prod` condition (src/utils/deployment.py:91): the options
dict is truthy, has a `production` key, and its value is truthy. -/
def prodFlag (additional_options : Option (List (String × Bool))) : Bool :=
  match additional_options with
  | none => false
  | some opts =>
      ¬ opts.isEmpty && (match opts.lookup "production" with
                         | some b => b
                         | none => false)

/-- `deploy_to_github_pages` (src/utils/deployment.py:6 and
src/main.py:570, identical code): git init when needed, add, commit,
checkout (`-b` first, plain on `CalledProcessError`), optional
token-authenticated remote rewrite, force push.  Both handlers format
`str(e)`. -/
def deploy_to_github_pages (env : Env)
    (site_path destination branch commit_message : String)
    (api_key : Option String) (w : World) : Envelope × World :=
  let fail := fun (e : PyExc) (w' : World) =>
    ((⟨"error", some ("GitHub Pages deployment failed: " ++ pyStrExc e), []⟩ :
        Envelope), w')
  let s1 : Except PyExc Unit × World :=
    if env.pathExists (site_path ++ "/.git") then (.ok (), w)
    else
      match runStep env ["git", "init"] w with
      | (.ok _, w') => (.ok (), w')
      | (.error e, w') => (.error e, w')
  match s1 with
  | (.error e, w') => fail e w'
  | (.ok _, w1) =>
    match runStep env ["git", "add", destination] w1 with
    | (.error e, w') => fail e w'
    | (.ok _, w2) =>
      match runStep env ["git", "commit", "-m", commit_message] w2 with
      | (.error e, w') => fail e w'
      | (.ok _, w3) =>
        let s4 : Except PyExc Unit × World :=
          match runStep env ["git", "checkout", "-b", branch] w3 with
          | (.ok _, w') => (.ok (), w')
          | (.error (.cpe _ _ _), w') =>
              (match runStep env ["git", "checkout", branch] w' with
               | (.ok _, w'') => (.ok (), w'')
               | (.error e, w'') => (.error e, w''))
          | (.error e, w') => (.error e, w')
        match s4 with
        | (.error e, w') => fail e w'
        | (.ok _, w4) =>
          let s5 : Except PyExc Unit × World :=
            match api_key with
            | none => (.ok (), w4)
            | some key =>
              match runStep env ["git", "config", "--get",
                                 "remote.origin.url"] w4 with
              | (.error e, w') => (.error e, w')
              | (.ok (out, _), w') =>
                let remote := pyStrip out
                if pyStartsWith remote "https://" then
                  match runStep env ["git", "remote", "set-url", "origin",
                      pyReplace remote "https://" ("https://" ++ key ++ "@")]
                      w' with
                  | (.ok _, w'') => (.ok (), w'')
                  | (.error e, w'') => (.error e, w'')
                else (.ok (), w')
          match s5 with
          | (.error e, w') => fail e w'
          | (.ok _, w5) =>
            match runStep env ["git", "push", "origin", branch, "--force"] w5 with
            | (.error e, w') => fail e w'
            | (.ok _, w6) =>
                (⟨"success", none,
                  [("platform", .vs "github-pages"), ("branch", .vs branch),
                   ("url", .vs ("https://" ++ pyBasename site_path
                       ++ ".github.io"))]⟩, w6)

/-- `deploy_to_netlify` (src/utils/deployment.py:69 and
src/main.py:633, identical code): probe `netlify --version`, installing
the CLI via npm on `CalledProcessError` or `FileNotFoundError`; login
when an API key is given; deploy; extract a URL from stdout.  The
`CalledProcessError` handler formats `e.stderr`, the generic one
`str(e)` — a missing `npm` is caught by the latter. -/
def deploy_to_netlify (env : Env) (destination : String)
    (api_key : Option String) (additional_options : Option (List (String × Bool)))
    (w : World) : Envelope × World :=
  let fail := fun (e : PyExc) (w' : World) =>
    ((⟨"error", some ("Netlify deployment failed: "
        ++ (match e with
            | .cpe _ _ stderrTxt => stderrTxt
            | _ => pyStrExc e)), []⟩ : Envelope), w')
  let s1 : Except PyExc Unit × World :=
    match runStep env ["netlify", "--version"] w with
    | (.ok _, w') => (.ok (), w')
    | (.error (.cpe _ _ _), w') =>
        (match runStep env ["npm", "install", "-g", "netlify-cli"] w' with
         | (.ok _, w'') => (.ok (), w'')
         | (.error e, w'') => (.error e, w''))
    | (.error (.fnf _), w') =>
        (match runStep env ["npm", "install", "-g", "netlify-cli"] w' with
         | (.ok _, w'') => (.ok (), w'')
         | (.error e, w'') => (.error e, w''))
    | (.error e, w') => (.error e, w')
  match s1 with
  | (.error e, w') => fail e w'
  | (.ok _, w1) =>
    let s2 : Except PyExc Unit × World :=
      match api_key with
      | none => (.ok (), w1)
      | some key =>
        match runStep env ["netlify", "login", "--token", key] w1 with
        | (.ok _, w') => (.ok (), w')
        | (.error e, w') => (.error e, w')
    match s2 with
    | (.error e, w') => fail e w'
    | (.ok _, w2) =>
      let cmd := ["netlify", "deploy", "--dir", destination]
                   ++ (if prodFlag additional_options then ["--prod"] else [])
      match runStep env cmd w2 with
      | (.error e, w') => fail e w'
      | (.ok (out, _), w3) =>
          (⟨"success", none,
            [("platform", .vs "netlify"), ("url", .vs (extractUrl out))]⟩, w3)

/-- `deploy_to_vercel` (src/utils/deployment.py:119 and
src/main.py:683, identical code): same shape as the Netlify path with
the Vercel CLI. -/
def deploy_to_vercel (env : Env) (destination : String)
    (api_key : Option String) (additional_options : Option (List (String × Bool)))
    (w : World) : Envelope × World :=
  let fail := fun (e : PyExc) (w' : World) =>
    ((⟨"error", some ("Vercel deployment failed: "
        ++ (match e with
            | .cpe _ _ stderrTxt => stderrTxt
            | _ => pyStrExc e)), []⟩ : Envelope), w')
  let s1 : Except PyExc Unit × World :=
    match runStep env ["vercel", "--version"] w with
    | (.ok _, w') => (.ok (), w')
    | (.error (.cpe _ _ _), w') =>
        (match runStep env ["npm", "install", "-g", "vercel"] w' with
         | (.ok _, w'') => (.ok (), w'')
         | (.error e, w'') => (.error e, w''))
    | (.error (.fnf _), w') =>
        (match runStep env ["npm", "install", "-g", "vercel"] w' with
         | (.ok _, w'') => (.ok (), w'')
         | (.error e, w'') => (.error e, w''))
    | (.error e, w') => (.error e, w')
  match s1 with
  | (.error e, w') => fail e w'
  | (.ok _, w1) =>
    let s2 : Except PyExc Unit × World :=
      match api_key with
      | none => (.ok (), w1)
      | some key =>
        match runStep env ["vercel", "login", "--token", key] w1 with
        | (.ok _, w') => (.ok (), w')
        | (.error e, w') => (.error e, w')
    match s2 with
    | (.error e, w') => fail e w'
    | (.ok _, w2) =>
      let cmd := ["vercel", "--cwd", destination]
                   ++ (if prodFlag additional_options then ["--prod"] else [])
      match runStep env cmd w2 with
      | (.error e, w') => fail e w'
      | (.ok (out, _), w3) =>
          (⟨"success", none,
            [("platform", .vs "vercel"), ("url", .vs (extractUrl out))]⟩, w3)

/-- `deploy_to_custom` (src/utils/deployment.py:169 and
src/main.py:733, identical code): git init when needed, add, commit,
`remote add deploy` (falling back to `remote set-url` on
`CalledProcessError`), force push `HEAD:{branch}`. -/
def deploy_to_custom (env : Env)
    (site_path destination remote_url branch commit_message : String)
    (w : World) : Envelope × World :=
  let fail := fun (e : PyExc) (w' : World) =>
    ((⟨"error", some ("Custom deployment failed: " ++ pyStrExc e), []⟩ :
        Envelope), w')
  let s1 : Except PyExc Unit × World :=
    if env.pathExists (site_path ++ "/.git") then (.ok (), w)
    else
      match runStep env ["git", "init"] w with
      | (.ok _, w') => (.ok (), w')
      | (.error e, w') => (.error e, w')
  match s1 with
  | (.error e, w') => fail e w'
  | (.ok _, w1) =>
    match runStep env ["git", "add", destination] w1 with
    | (.error e, w') => fail e w'
    | (.ok _, w2) =>
      match runStep env ["git", "commit", "-m", commit_message] w2 with
      | (.error e, w') => fail e w'
      | (.ok _, w3) =>
        let s4 : Except PyExc Unit × World :=
          match runStep env ["git", "remote", "add", "deploy", remote_url] w3 with
          | (.ok _, w') => (.ok (), w')
          | (.error (.cpe _ _ _), w') =>
              (match runStep env ["git", "remote", "set-url", "deploy",
                                  remote_url] w' with
               | (.ok _, w'') => (.ok (), w'')
               | (.error e, w'') => (.error e, w''))
          | (.error e, w') => (.error e, w')
        match s4 with
        | (.error e, w') => fail e w'
        | (.ok _, w4) =>
          match runStep env ["git", "push", "deploy", "HEAD:" ++ branch,
                             "--force"] w4 with
          | (.error e, w') => fail e w'
          | (.ok _, w5) =>
              (⟨"success", none,
                [("platform", .vs "custom"), ("remote_url", .vs remote_url),
                 ("branch", .vs branch)]⟩, w5)

/-- `deploy_site` (src/main.py:501): validate the path, build first
(with `clean_destination=True`), short-circuit on a failed build, then
dispatch on the lower-cased platform string; anything outside the four
recognized targets (including `custom` without a remote URL) falls
through to the unsupported-platform error. -/
def deploy_site (env : Env)
    (site_path platform destination branch commit_message : String)
    (remote_url api_key : Option String)
    (additional_options : Option (List (String × Bool))) (w : World) :
    Envelope × World :=
  if ¬ env.isDir site_path then
    (⟨"error", some ("Site path '" ++ site_path ++ "' does not exist"), []⟩, w)
  else
    let w1 := chdirW w site_path
    let br := build_site env site_path destination true false w1
    if br.1.status ≠ "success" then br
    else if pyLower platform = "github-pages" then
      deploy_to_github_pages env site_path destination branch commit_message
        api_key br.2
    else if pyLower platform = "netlify" then
      deploy_to_netlify env destination api_key additional_options br.2
    else if pyLower platform = "vercel" then
      deploy_to_vercel env destination api_key additional_options br.2
    else if pyLower platform = "custom" ∧ remote_url.isSome then
      deploy_to_custom env site_path destination (remote_url.getD "") branch
        commit_message br.2
    else
      (⟨"error", some ("Unsupported platform: " ++ platform), []⟩, br.2)

/-! ### Derived observations and concrete fixtures -/

/-- The draft marker of a content file as the textual patch sees it:
`some true` when the text contains `draft: true`, `some false` when it
contains only `draft: false`, `none` when neither marker occurs. -/
def draftMark (c : String) : Option Bool :=
  if pyContains c "draft: true" then some true
  else if pyContains c "draft: false" then some false
  else none

/-- The content list carried by a `list_content` envelope. -/
def contentListOf (e : Envelope) : List String :=
  match payloadGet e "content" with
  | some (.vstrs l) => l
  | _ => []

/-- A stand-in for the file `hugo new` produces from the default
archetype: YAML front matter with a `draft: true` marker. -/
def hugoArchetype : String :=
  "---\ntitle: \"hello\"\ndate: 2024-01-01T00:00:00+00:00\ndraft: true\n---\n"

/-- The archetype after the draft marker is patched to `false`. -/
def hugoArchetypeDone : String :=
  "---\ntitle: \"hello\"\ndate: 2024-01-01T00:00:00+00:00\ndraft: false\n---\n"

/-- A benign environment: every executable present and succeeding,
every path a directory, no pre-existing files, HTTP and scraping
yielding empty results. -/
def defaultEnv : Env where
  run := fun _ => .ok "" ""
  which := fun _ => true
  systemName := "linux"
  isDir := fun _ => true
  pathExists := fun _ => false
  listDir := fun _ => []
  httpGet := fun _ => .resp 200 ""
  themeItems := fun _ => []
  detailScrape := fun _ => ⟨none, [], [], [], [], none⟩
  hugoNew := fun _ cur => (.ok "" "", cur)
  spawn := fun _ => .spawned 4242 false ""
  allowSignal := fun _ => true
  exitsOnTerm := fun _ => true

/-- macOS with no `brew` on the search path. -/
def darwinNoBrewEnv : Env :=
  { defaultEnv with systemName := "darwin", run := fun _ => .notFound }

/-- An environment in which every executable is missing. -/
def allMissingEnv : Env := { defaultEnv with run := fun _ => .notFound }

/-- An unreachable themes catalog. -/
def netDownEnv : Env :=
  { defaultEnv with httpGet := fun _ => .raiseReq "connection refused" }

/-- A catalog answering HTTP 500. -/
def http500Env : Env := { defaultEnv with httpGet := fun _ => .resp 500 "" }

/-- The generator oracle of the round-trip scenario: a missing content
file is created from the default archetype, an existing one is left
unchanged, the run succeeding either way. -/
def roundTripEnv : Env :=
  { defaultEnv with hugoNew := fun _ cur =>
      match cur with
      | none => (.ok "" "", some hugoArchetype)
      | some c => (.ok "" "", some c) }

/-- The real target of the `create_site` counterexample exists and is
non-empty, but the process's current directory (`/home/user`) has no
entry named `blog`, so the front end's `Path(site_name).exists()`
pre-check misses it; the generator then refuses the non-empty
directory. -/
def cwdElsewhereEnv : Env :=
  { defaultEnv with
      pathExists := fun p => p == "/srv/sites/blog",
      listDir := fun p => if p == "/srv/sites/blog" then ["content.bak"] else [],
      run := fun _ =>
        .failed 1 "" "Error: /srv/sites/blog already exists and is not empty" }

/-- World of the claim-3 counterexample: the process sits in
`/home/user`. -/
def cwdElsewhereWorld : World := { cwd := "/home/user" }

/-- World of the claim-5 counterexample: the TOML config already has a
`[module]` section (e.g. from a previously installed different theme),
`go.mod` already exists. -/
def moduleSectionWorld : World :=
  { configToml := some ["baseURL = \"https://example.org/\"", "[module]"],
    goMod := true }

/-- World of the claim-8 counterexample: the TOML config contains the
substring `theme = ` only inside a comment, so the submodule branch
takes its replace path and rewrites nothing. -/
def commentedThemeWorld : World :=
  { configToml := some ["# theme = old", "languageCode = \"en-us\""] }

/-- A freshly generated site: default TOML config (no `[module]`
section, no theme assignment), empty YAML config, no `go.mod`. -/
def freshConfigWorld : World :=
  { configToml := some ["baseURL = \"https://example.org/\""],
    configYaml := some {} }

/-- A site with one existing theme assignment in its TOML config. -/
def themedConfigWorld : World :=
  { configToml := some ["baseURL = \"https://example.org/\"",
                        "theme = \"old\""],
    configYaml := some { theme := some "old" } }

/-! ## Helper lemmas -/

theorem not_mem_filter_ne (l : List Nat) (p : Nat) :
    p ∉ l.filter (fun q => q ≠ p) := by
  simp

theorem nonGitEntry {l : List String} (h : ∃ x ∈ l, x ≠ ".git") :
    l.isEmpty = false ∧ hasOnlyGit l = false := by
  obtain ⟨x, hx, hne⟩ := h
  constructor
  · cases l with
    | nil => cases hx
    | cons a t => rfl
  · unfold hasOnlyGit
    cases l with
    | nil => cases hx
    | cons a t =>
      cases t with
      | nil =>
        simp only [List.mem_singleton] at hx
        subst hx
        simp [hne]
      | cons b t2 => rfl

theorem pyStrip_contained (l : String) : (pyStrip l).data <:+: l.data := by
  have h1 : l.data.dropWhile isPySpace <:+ l.data := List.dropWhile_suffix _
  have h2 : ((l.data.dropWhile isPySpace).reverse.dropWhile isPySpace).reverse
      <+: (l.data.dropWhile isPySpace).reverse.reverse :=
    List.reverse_prefix.mpr (List.dropWhile_suffix _)
  rw [List.reverse_reverse] at h2
  exact h2.isInfix.trans h1.isInfix

theorem startsWith_strip_contains (l pat : String)
    (h : pyStartsWith (pyStrip l) pat = true) : pyContains l pat = true := by
  unfold pyStartsWith at h
  rw [decide_eq_true_eq] at h
  unfold pyContains
  rw [decide_eq_true_eq]
  exact h.isInfix.trans (pyStrip_contained l)

theorem themeAssignLines_nil {ls : List String}
    (h : tomlHasThemeSub ls = false) : themeAssignLines ls = [] := by
  unfold themeAssignLines
  rw [List.filter_eq_nil_iff]
  intro a ha hq
  unfold tomlHasThemeSub at h
  rw [List.any_eq_false] at h
  exact absurd (startsWith_strip_contains a "theme = " hq)
    (by simpa using h a ha)

theorem countTomlImports_append (l1 l2 : List String) (url : String) :
    countTomlImports (l1 ++ l2) url =
      countTomlImports l1 url + countTomlImports l2 url := by
  simp [countTomlImports, List.filter_append]

theorem countTomlImports_removeTheme_le (ls : List String) (url : String) :
    countTomlImports (tomlRemoveTheme ls) url ≤ countTomlImports ls url := by
  unfold countTomlImports tomlRemoveTheme
  exact ((List.filter_sublist ls).filter _).length_le

theorem countTomlImports_removeTheme (ls : List String) (url : String)
    (hu : pyStartsWith ("path = \"" ++ url ++ "\"") "theme = " = false) :
    countTomlImports (tomlRemoveTheme ls) url = countTomlImports ls url := by
  unfold countTomlImports tomlRemoveTheme
  rw [List.filter_filter]
  apply congrArg List.length
  apply List.filter_congr
  intro a ha
  by_cases hq : pyStrip a == "path = \"" ++ url ++ "\""
  · rw [hq]
    have hsa : pyStrip a = "path = \"" ++ url ++ "\"" := by
      exact eq_of_beq hq
    simp [hsa, hu]
  · simp [Bool.eq_false_iff.mpr hq]

theorem countTomlImports_moduleBlock (url : String) (hu : UrlOk url) :
    countTomlImports (moduleBlock url) url = 1 := by
  obtain ⟨u1, u2, u3, u4, u5⟩ := hu
  unfold countTomlImports moduleBlock
  simp [List.filter_cons, (by decide : pyStrip "" = ""),
    (by decide : pyStrip "[module]" = "[module]"),
    (by decide : pyStrip "  [[module.imports]]" = "[[module.imports]]"),
    u1, beq_iff_eq, u3, u4, u5]

theorem themeAssignLines_moduleBlock (url : String) (hu : UrlOk url) :
    themeAssignLines (moduleBlock url) = [] := by
  obtain ⟨u1, u2, u3, u4, u5⟩ := hu
  unfold themeAssignLines moduleBlock
  simp [List.filter_cons, (by decide : pyStrip "" = ""),
    (by decide : pyStrip "[module]" = "[module]"),
    (by decide : pyStrip "  [[module.imports]]" = "[[module.imports]]"),
    (by decide : pyStartsWith "" "theme = " = false),
    (by decide : pyStartsWith "[module]" "theme = " = false),
    (by decide : pyStartsWith "[[module.imports]]" "theme = " = false),
    u1, u2]

theorem tomlHasModule_append_block (kept : List String) (url : String) :
    tomlHasModule (kept ++ moduleBlock url) = true := by
  unfold tomlHasModule moduleBlock
  rw [List.any_append]
  simp [(by decide : pyContains "[module]" "[module]" = true)]

theorem themeAssignLines_removeTheme (ls : List String) :
    themeAssignLines (tomlRemoveTheme ls) = [] := by
  unfold themeAssignLines tomlRemoveTheme
  rw [List.filter_filter]
  rw [List.filter_eq_nil_iff]
  intro a ha
  simp

theorem tomlModuleInstall_fresh (ls : List String) (url : String)
    (hm : tomlHasModule ls = false) (h0 : countTomlImports ls url = 0)
    (hu : UrlOk url) :
    countTomlImports (tomlModuleInstall ls url) url = 1 := by
  unfold tomlModuleInstall
  rw [hm]
  simp only [Bool.false_eq_true, if_false]
  rw [countTomlImports_append]
  have hk : countTomlImports (tomlRemoveTheme ls) url = 0 :=
    Nat.le_zero.mp (h0 ▸ countTomlImports_removeTheme_le ls url)
  rw [hk, countTomlImports_moduleBlock url hu]

theorem tomlModuleInstall_twice (ls : List String) (url : String)
    (hm : tomlHasModule ls = false) (h0 : countTomlImports ls url = 0)
    (hu : UrlOk url) :
    countTomlImports (tomlModuleInstall (tomlModuleInstall ls url) url) url
      = 1 := by
  have h1 : countTomlImports (tomlModuleInstall ls url) url = 1 :=
    tomlModuleInstall_fresh ls url hm h0 hu
  have hblock : tomlModuleInstall ls url =
      tomlRemoveTheme ls ++ moduleBlock url := by
    unfold tomlModuleInstall
    rw [hm]
    simp
  have hmod : tomlHasModule (tomlModuleInstall ls url) = true := by
    rw [hblock]
    exact tomlHasModule_append_block _ url
  conv =>
    lhs
    rw [tomlModuleInstall]
  rw [hmod]
  simp only [if_true]
  rw [countTomlImports_removeTheme _ url hu.2.1]
  exact h1

theorem tomlModuleInstall_no_theme (ls : List String) (url : String)
    (hu : UrlOk url) :
    themeAssignLines (tomlModuleInstall ls url) = [] := by
  unfold tomlModuleInstall
  by_cases hm : tomlHasModule ls
  · rw [hm]
    simp only [if_true]
    exact themeAssignLines_removeTheme ls
  · simp only [Bool.not_eq_true] at hm
    rw [hm]
    simp only [Bool.false_eq_true, if_false]
    unfold themeAssignLines at *
    rw [List.filter_append]
    rw [show (tomlRemoveTheme ls).filter
          (fun l => pyStartsWith (pyStrip l) "theme = ") = [] from
        themeAssignLines_removeTheme ls]
    rw [show (moduleBlock url).filter
          (fun l => pyStartsWith (pyStrip l) "theme = ") = [] from
        themeAssignLines_moduleBlock url hu]
    rfl

theorem tomlModuleInstall_le_one (ls : List String) (url : String)
    (hu : UrlOk url) (h1 : countTomlImports ls url ≤ 1)
    (h2 : tomlHasModule ls = false → countTomlImports ls url = 0) :
    countTomlImports (tomlModuleInstall ls url) url ≤ 1 := by
  unfold tomlModuleInstall
  by_cases hm : tomlHasModule ls
  · rw [hm]
    simp only [if_true]
    exact le_trans (countTomlImports_removeTheme_le ls url) h1
  · simp only [Bool.not_eq_true] at hm
    rw [hm]
    simp only [Bool.false_eq_true, if_false]
    have hz : countTomlImports (tomlRemoveTheme ls) url = 0 := by
      have hle := countTomlImports_removeTheme_le ls url
      rw [h2 hm] at hle
      exact Nat.le_zero.mp hle
    rw [countTomlImports_append, hz, countTomlImports_moduleBlock url hu]

theorem tomlSubmoduleInstall_assign (ls : List String) (name : String)
    (hn : pyStartsWith (pyStrip (tomlThemeLine name)) "theme = " = true)
    (hone : tomlHasThemeSub ls = true → ∃ a, themeAssignLines ls = [a]) :
    themeAssignLines (tomlSubmoduleInstall ls name) = [tomlThemeLine name] := by
  unfold tomlSubmoduleInstall
  by_cases hs : tomlHasThemeSub ls
  · rw [hs]
    simp only [if_true]
    obtain ⟨a, ha⟩ := hone hs
    unfold themeAssignLines at ha ⊢
    rw [List.filter_map]
    have hcong : ls.filter ((fun l => pyStartsWith (pyStrip l) "theme = ") ∘
        (fun l => if pyStartsWith (pyStrip l) "theme = " = true then
                    tomlThemeLine name else l)) =
        ls.filter (fun l => pyStartsWith (pyStrip l) "theme = ") := by
      apply List.filter_congr
      intro b hb
      by_cases hq : pyStartsWith (pyStrip b) "theme = " = true
      · simp [hq, hn]
      · simp only [Bool.not_eq_true] at hq
        simp [hq]
    rw [hcong, ha]
    have hqa : pyStartsWith (pyStrip a) "theme = " = true := by
      have hmem : a ∈ ls.filter (fun l => pyStartsWith (pyStrip l) "theme = ") := by
        rw [ha]
        exact List.mem_singleton.mpr rfl
      exact (List.mem_filter.mp hmem).2
    simp [hqa]
  · simp only [Bool.not_eq_true] at hs
    rw [hs]
    simp only [Bool.false_eq_true, if_false]
    unfold themeAssignLines at *
    rw [List.filter_append, (by exact themeAssignLines_nil hs :
      ls.filter (fun l => pyStartsWith (pyStrip l) "theme = ") = [])]
    simp [hn]

theorem yamlModuleInstall_once (c : YamlCfg) (url : String)
    (h : c.imports.count url = 0) :
    (yamlModuleInstall c url).imports = c.imports ++ [url]
      ∧ (yamlModuleInstall c url).imports.count url = 1 := by
  have hnm : url ∉ c.imports := List.count_eq_zero.mp h
  constructor
  · simp [yamlModuleInstall, hnm]
  · simp [yamlModuleInstall, hnm, List.count_append, h]

theorem yamlModuleInstall_stable (c : YamlCfg) (url : String)
    (h : url ∈ c.imports) :
    (yamlModuleInstall c url).imports = c.imports := by
  simp [yamlModuleInstall, h]

theorem install_theme_module_shape (env : Env) (site name url : String)
    (w : World) (o1 e1 o2 e2 : String)
    (hdir : env.isDir site = true)
    (hinit : env.run ["hugo", "mod", "init",
        "github.com/" ++ pyBasenameNorm site] = .ok o1 e1)
    (hget : env.run ["hugo", "mod", "get", url] = .ok o2 e2) :
    (install_theme env site name url true w).1 =
        ⟨"success", none,
          [("theme", .vs name), ("method", .vs "hugo_modules")]⟩
      ∧ (install_theme env site name url true w).2.configToml
          = w.configToml.map (tomlModuleInstall · url)
      ∧ (install_theme env site name url true w).2.configYaml
          = w.configYaml.map (yamlModuleInstall · url)
      ∧ (install_theme env site name url true w).2.goMod = true := by
  by_cases hg : w.goMod <;>
    simp [install_theme, hdir, chdirW, runStep, hinit, hget, applyConfigs, hg]

theorem install_theme_submodule_shape (env : Env) (site name url : String)
    (w : World) (o e : String)
    (hdir : env.isDir site = true)
    (hadd : env.run ["git", "submodule", "add", url, "themes/" ++ name]
      = .ok o e) :
    (install_theme env site name url false w).1 =
        ⟨"success", none,
          [("theme", .vs name), ("method", .vs "git_submodule")]⟩
      ∧ (install_theme env site name url false w).2.configToml
          = w.configToml.map (tomlSubmoduleInstall · name)
      ∧ (install_theme env site name url false w).2.configYaml
          = w.configYaml.map (yamlSubmoduleInstall · name) := by
  by_cases hp : env.pathExists (site ++ "/themes") <;>
    simp [install_theme, hdir, chdirW, runStep, hadd, applyConfigs, hp]

/-! ## Claims -/

/-- C1, counterexample: `install_hugo` on macOS with `brew` missing
from the search path lets the `FileNotFoundError` escape the
operation's boundary (its `try` catches only `CalledProcessError`),
instead of returning a `status=error` envelope. -/
theorem claim1_counterexample :
    darwinNoBrewEnv.run ["brew", "install", "hugo"] = .notFound
      ∧ (install_hugo darwinNoBrewEnv {}).1 =
          Except.error (PyExc.fnf "brew") := by
  constructor
  · rfl
  · rfl

/-- C1, amended: operations that install a `FileNotFoundError` handler
or a catch-all handler do convert a missing executable into a
`status=error` envelope with a message naming the missing binary —
`check_hugo_installation` classifies it as "not installed or not in
PATH", and `deploy_to_netlify` (whose CLI probe falls back to an `npm`
install, itself missing here) reports the `FileNotFoundError` text
through its generic handler; the installer operations
(`install_hugo`/`install_go`/`install_git`), however, catch only
`CalledProcessError` and let the fault propagate (see the
counterexample). -/
theorem claim1_amended :
    (∀ env w, env.run ["hugo", "version"] = .notFound →
       (check_hugo_installation env w).1 =
         ⟨"error", some "Hugo is not installed or not in PATH", []⟩)
    ∧ (∀ env dest key ao w,
        env.run ["netlify", "--version"] = .notFound →
        env.run ["npm", "install", "-g", "netlify-cli"] = .notFound →
        (deploy_to_netlify env dest key ao w).1 =
          ⟨"error", some ("Netlify deployment failed: " ++ fnfStr "npm"), []⟩) := by
  constructor
  · intro env w h
    simp [check_hugo_installation, runStep, h]
  · intro env dest key ao w h1 h2
    simp [deploy_to_netlify, runStep, h1, h2, pyStrExc]

/-- C1, witness for the amended theorem at a concrete environment in
which every executable is missing. -/
theorem claim1_witness :
    (check_hugo_installation allMissingEnv {}).1 =
        ⟨"error", some "Hugo is not installed or not in PATH", []⟩
      ∧ (deploy_to_netlify allMissingEnv "public" none none {}).1 =
          ⟨"error", some ("Netlify deployment failed: " ++ fnfStr "npm"), []⟩ :=
  ⟨claim1_amended.1 allMissingEnv {} rfl,
   claim1_amended.2 allMissingEnv "public" none none {} rfl rfl⟩

/-- C2: every envelope `build_site` or `get_theme_details` returns
satisfies the envelope invariant — `status=error` carries a message,
`status=success` carries none (hence no failure-describing message),
and the payload fields are only the promised ones (`destination` and
`output` for the build, `theme` for the details).  Both functions are
total, so no fault crosses the boundary. -/
theorem claim2_envelope_invariant :
    (∀ env site_path destination clean minify w,
       envInv (build_site env site_path destination clean minify w).1
         ["destination", "output"])
    ∧ (∀ env theme_name,
       envInv (get_theme_details env theme_name) ["theme"]) := by
  constructor
  · intro env sp d c m w
    unfold build_site envInv
    split
    · simp
    · cases h : env.run (hugoBuildCmd d c m) <;> simp [runStep, h, pyStrExc]
  · intro env name
    unfold get_theme_details
    dsimp only
    split
    · simp [envInv]
    · split
      · simp [envInv]
      · split
        · simp [envInv]
        · simp [envInv]
        · split <;> simp [envInv]

/-- C2, witness: the invariant at a concrete environment. -/
theorem claim2_witness :
    envInv (build_site defaultEnv "/s" "public" false false {}).1
        ["destination", "output"]
      ∧ envInv (get_theme_details netDownEnv "ananke") ["theme"] :=
  ⟨claim2_envelope_invariant.1 defaultEnv "/s" "public" false false {},
   claim2_envelope_invariant.2 netDownEnv "ananke"⟩

/-- C7: `list_themes` (a total function — no exception crosses its
boundary) converts a raised `RequestException` into `status=error`
with a `Network error:` message and any non-200 (hence any non-2xx)
response into `status=error` naming the HTTP status; an error envelope
never carries a non-empty themes list; and a 200 page with zero
structural matches yields `status=success` with an empty list. -/
theorem claim7_list_themes_failure_modes :
    (∀ env m, env.httpGet "https://themes.gohugo.io/" = .raiseReq m →
       list_themes env = ⟨"error", some ("Network error: " ++ m), []⟩)
    ∧ (∀ env code body,
        env.httpGet "https://themes.gohugo.io/" = .resp code body →
        code ≠ 200 →
        list_themes env =
          ⟨"error", some ("Failed to fetch themes: HTTP " ++ toString code), []⟩)
    ∧ (∀ env, (list_themes env).status = "error" →
        themesOf (list_themes env) = [])
    ∧ (∀ env body, env.httpGet "https://themes.gohugo.io/" = .resp 200 body →
        env.themeItems body = [] →
        list_themes env =
          ⟨"success", none, [("themes", .vthemes []), ("count", .vn 0)]⟩) := by
  refine ⟨?_, ?_, ?_, ?_⟩
  · intro env m h
    simp [list_themes, h]
  · intro env code body h hne
    simp [list_themes, h, hne]
  · intro env h
    unfold list_themes at h ⊢
    unfold themesOf payloadGet
    split at h <;> simp_all
    split at h <;> simp_all
  · intro env body h hz
    simp [list_themes, h, hz, processItems]

/-- C7, witness at concrete environments: an unreachable host, an HTTP
500 response, and a structurally empty 200 page. -/
theorem claim7_witness :
    list_themes netDownEnv =
        ⟨"error", some ("Network error: " ++ "connection refused"), []⟩
      ∧ list_themes http500Env =
          ⟨"error", some ("Failed to fetch themes: HTTP " ++ toString 500), []⟩
      ∧ themesOf (list_themes http500Env) = []
      ∧ list_themes defaultEnv =
          ⟨"success", none, [("themes", .vthemes []), ("count", .vn 0)]⟩ :=
  ⟨claim7_list_themes_failure_modes.1 netDownEnv "connection refused" rfl,
   claim7_list_themes_failure_modes.2.1 http500Env 500 "" rfl (by decide),
   claim7_list_themes_failure_modes.2.2.1 http500Env (by decide),
   claim7_list_themes_failure_modes.2.2.2 defaultEnv "" rfl rfl⟩

/-- C9: `stop_preview` on a pid with no live process returns
`status=error` with a message naming the pid; on the pid that a
successful `start_preview` just returned — provided the server honours
SIGTERM, which is all the code sends — it returns `status=success` and
the process is gone from the live set afterwards. -/
theorem claim9_stop_preview_roundtrip :
    (∀ env pid w, w.running.contains pid = false →
       stop_preview env pid w =
         (⟨"error", some ("Process with PID " ++ toString pid
             ++ " not found"), []⟩, w))
    ∧ (∀ env site port bind bd bf be w pid stderrTxt,
        env.isDir site = true →
        env.spawn (hugoServerCmd port bind bd bf be) =
          .spawned pid false stderrTxt →
        env.allowSignal pid = true →
        env.exitsOnTerm pid = true →
        ((start_preview env site port bind bd bf be w).1.status = "success"
          ∧ payloadGet (start_preview env site port bind bd bf be w).1 "pid"
              = some (.vn pid)
          ∧ (stop_preview env pid
                (start_preview env site port bind bd bf be w).2).1.status
              = "success"
          ∧ (stop_preview env pid
                (start_preview env site port bind bd bf be w).2).2.running.contains
                pid = false)) := by
  constructor
  · intro env pid w h
    have h' : pid ∉ w.running := by simpa using h
    simp [stop_preview, h']
  · intro env site port bind bd bf be w pid stderrTxt hdir hspawn hsig hterm
    have hstart : start_preview env site port bind bd bf be w =
        (⟨"success", none,
          [("url", .vs ("http://" ++ bind ++ ":" ++ toString port)),
           ("pid", .vn pid),
           ("options", .vopts bd bf be)]⟩,
         { chdirW w site with
             effects := (chdirW w site).effects
               ++ [.runCmdE (hugoServerCmd port bind bd bf be)],
             running := (chdirW w site).running ++ [pid] }) := by
      simp [start_preview, hdir, hspawn]
    rw [hstart]
    refine ⟨rfl, by simp [payloadGet], ?_, ?_⟩
    · simp [stop_preview, hsig, chdirW]
    · simp [stop_preview, hsig, hterm, chdirW, not_mem_filter_ne]

/-- C9, witness: the concrete environment starts a server with pid
4242; stopping pid 7 (not live) errors naming it, stopping 4242
succeeds and removes it. -/
theorem claim9_witness :
    stop_preview defaultEnv 7 {} =
        (⟨"error", some ("Process with PID " ++ toString 7 ++ " not found"),
          []⟩, ({} : World))
      ∧ ((start_preview defaultEnv "/s" 1313 "127.0.0.1" false false false
            {}).1.status = "success"
        ∧ payloadGet (start_preview defaultEnv "/s" 1313 "127.0.0.1" false
              false false {}).1 "pid" = some (.vn 4242)
        ∧ (stop_preview defaultEnv 4242
              (start_preview defaultEnv "/s" 1313 "127.0.0.1" false false
                false {}).2).1.status = "success"
        ∧ (stop_preview defaultEnv 4242
              (start_preview defaultEnv "/s" 1313 "127.0.0.1" false false
                false {}).2).2.running.contains 4242 = false) :=
  ⟨claim9_stop_preview_roundtrip.1 defaultEnv 7 {} rfl,
   claim9_stop_preview_roundtrip.2 defaultEnv "/s" 1313 "127.0.0.1" false
     false false {} 4242 "" rfl rfl rfl rfl⟩

/-- C10: `stop_preview` consults no registry of servers this system
started — it signals whatever pid it is given.  For any world state
and any live pid the server may signal (whether or not `start_preview`
put it there), and a process that exits on SIGTERM, it returns
`status=success` and the process is terminated. -/
theorem claim10_stop_preview_any_pid :
    ∀ env pid w, w.running.contains pid = true →
      env.allowSignal pid = true →
      env.exitsOnTerm pid = true →
      (stop_preview env pid w).1 =
        ⟨"success", some ("Server with PID " ++ toString pid ++ " stopped"), []⟩
      ∧ (stop_preview env pid w).2.running.contains pid = false := by
  intro env pid w hlive hsig hterm
  have hmem : pid ∈ w.running := by simpa using hlive
  constructor
  · simp [stop_preview, hmem, hsig]
  · simp [stop_preview, hmem, hsig, hterm, not_mem_filter_ne]

/-- C10, witness: a pid (99) that `start_preview` never produced is
terminated with `status=success`. -/
theorem claim10_witness :
    (stop_preview defaultEnv 99 { running := [99] }).1 =
        ⟨"success", some ("Server with PID " ++ toString 99 ++ " stopped"), []⟩
      ∧ (stop_preview defaultEnv 99
            { running := [99] }).2.running.contains 99 = false :=
  claim10_stop_preview_any_pid defaultEnv 99 { running := [99] } rfl rfl rfl

/-- C6: for a platform string outside the four recognized targets,
`deploy_site` runs the production build first (the code builds before
dispatching), and a successful build does not mask the error: the
result is `status=error` with a message identifying the unsupported
platform, and the only external command issued is the `hugo` build —
no push or platform CLI command runs. -/
theorem claim6_unsupported_platform :
    ∀ env site platform dest branch msg remote key ao w out errTxt,
      env.isDir site = true →
      env.run (hugoBuildCmd dest true false) = .ok out errTxt →
      pyLower platform ≠ "github-pages" →
      pyLower platform ≠ "netlify" →
      pyLower platform ≠ "vercel" →
      pyLower platform ≠ "custom" →
      (deploy_site env site platform dest branch msg remote key ao w).1 =
          ⟨"error", some ("Unsupported platform: " ++ platform), []⟩
        ∧ (deploy_site env site platform dest branch msg remote key ao w).2.effects
            = w.effects ++ [.chdirE site, .chdirE site,
                            .runCmdE (hugoBuildCmd dest true false)] := by
  intro env site platform dest branch msg remote key ao w out errTxt
    hdir hrun h1 h2 h3 h4
  refine ⟨?_, ?_⟩ <;>
    simp [deploy_site, build_site, chdirW, hdir, runStep, hrun,
          h1, h2, h3, h4, List.append_assoc]

/-- C6, witness at the platform string `"bogus"`. -/
theorem claim6_witness :
    (deploy_site defaultEnv "/s" "bogus" "public" "main" "Update site" none
        none none {}).1 =
        ⟨"error", some ("Unsupported platform: " ++ "bogus"), []⟩
      ∧ (deploy_site defaultEnv "/s" "bogus" "public" "main" "Update site"
            none none none {}).2.effects
          = ([] : List Effect) ++ [.chdirE "/s", .chdirE "/s",
                                   .runCmdE (hugoBuildCmd "public" true false)] :=
  claim6_unsupported_platform defaultEnv "/s" "bogus" "public" "main"
    "Update site" none none none {} "" "" rfl rfl (by decide) (by decide)
    (by decide) (by decide)

/-- C3, counterexample: the front-end `create_site` tool checks
`Path(site_name).exists()` against the process's current working
directory, not against `site_abs_path`.  With the process sitting in
`/home/user` while the target `/srv/sites/blog` exists and holds a
file other than `.git`, the `force=false` call still invokes the
generator (`hugo new site blog`) — a generator command runs even
though the claim says none may — and only the generator's own refusal
turns the result into `status=error`. -/
theorem claim3_counterexample :
    cwdElsewhereEnv.pathExists ("/srv/sites" ++ "/" ++ "blog") = true
      ∧ ("content.bak" ∈ cwdElsewhereEnv.listDir "/srv/sites/blog"
          ∧ "content.bak" ≠ ".git")
      ∧ (create_site_main cwdElsewhereEnv "/srv/sites" "blog" false
            cwdElsewhereWorld).1.status = "error"
      ∧ Effect.runCmdE ["hugo", "new", "site", "blog"]
          ∈ (create_site_main cwdElsewhereEnv "/srv/sites" "blog" false
              cwdElsewhereWorld).2.effects := by
  refine ⟨by decide, ⟨by decide, by decide⟩, by decide, by decide⟩

/-- C3, amended: the operation-layer `create_site`
(src/utils/site.py) satisfies the claim as stated, in both directory
modes: with `force=false` against an existing target containing an
entry other than `.git` it returns `status=error` and leaves the world
(files, effects, everything) untouched.  The front-end variant
(src/main.py) guarantees this only when the process's current working
directory is `site_abs_path`, because its pre-check resolves
`site_name` against the current directory. -/
theorem claim3_no_mutation_amended :
    (∀ env root name w,
       env.pathExists (root ++ "/" ++ name) = true →
       (∃ x ∈ env.listDir (root ++ "/" ++ name), x ≠ ".git") →
       create_site env root name false false w =
         (⟨"error", some ("Directory '" ++ name ++ "' already exists and is "
             ++ "not empty. Use force=True to override."), []⟩, w))
    ∧ (∀ env root name w,
        env.pathExists root = true →
        (∃ x ∈ env.listDir root, x ≠ ".git") →
        create_site env root name false true w =
          (⟨"error", some ("Current directory is not empty (contains files "
              ++ "other than .git). Use force=True to override."), []⟩, w))
    ∧ (∀ env root name w,
        w.cwd = root →
        env.pathExists (root ++ "/" ++ name) = true →
        pyStartsWith name "/" = false →
        create_site_main env root name false w =
          (⟨"error", some ("Directory '" ++ name
              ++ "' already exists. Use force=True to overwrite."), []⟩, w)) := by
  refine ⟨?_, ?_, ?_⟩
  · intro env root name w hex hng
    obtain ⟨he, hg⟩ := nonGitEntry hng
    simp [create_site, hex, he, hg]
  · intro env root name w hex hng
    obtain ⟨he, hg⟩ := nonGitEntry hng
    simp [create_site, hex, he, hg]
  · intro env root name w hcwd hex hrel
    simp [create_site_main, joinPath, hcwd, hrel, hex]

/-- C3, witness: concrete instances of all three amended parts. -/
theorem claim3_witness :
    create_site cwdElsewhereEnv "/srv/sites" "blog" false false
        cwdElsewhereWorld =
        (⟨"error", some ("Directory '" ++ "blog" ++ "' already exists and is "
            ++ "not empty. Use force=True to override."), []⟩, cwdElsewhereWorld)
      ∧ create_site cwdElsewhereEnv "/srv/sites/blog" "x" false true
          cwdElsewhereWorld =
          (⟨"error", some ("Current directory is not empty (contains files "
              ++ "other than .git). Use force=True to override."), []⟩,
           cwdElsewhereWorld)
      ∧ create_site_main cwdElsewhereEnv "/srv/sites" "blog" false
          { cwd := "/srv/sites" } =
          (⟨"error", some ("Directory '" ++ "blog"
              ++ "' already exists. Use force=True to overwrite."), []⟩,
           { cwd := "/srv/sites" }) :=
  ⟨claim3_no_mutation_amended.1 cwdElsewhereEnv "/srv/sites" "blog"
     cwdElsewhereWorld (by decide) ⟨"content.bak", by decide, by decide⟩,
   claim3_no_mutation_amended.2.1 cwdElsewhereEnv "/srv/sites/blog" "x"
     cwdElsewhereWorld (by decide) ⟨"content.bak", by decide, by decide⟩,
   claim3_no_mutation_amended.2.2 cwdElsewhereEnv "/srv/sites" "blog"
     { cwd := "/srv/sites" } rfl (by decide) (by decide)⟩

/-- C4: on a fresh site, when the generator runs successfully —
creating a missing `hello.md` from the default (draft-true) archetype
and leaving an existing one unchanged — `create_post("hello",
draft=true)` succeeds and `list_content` lists exactly one path ending
in `hello.md` (namely `posts/hello.md`) whose file's draft marker is
`true`; calling `create_post` again with `draft=false` flips the
file's marker to `false` without duplicating the entry. -/
theorem claim4_draft_roundtrip :
    ∀ env w site,
      env.isDir site = true →
      w.files = [] →
      env.hugoNew "content/posts/hello.md" none =
        (.ok "" "", some hugoArchetype) →
      (∀ cur, env.hugoNew "content/posts/hello.md" (some cur) =
        (.ok "" "", some cur)) →
      (create_post env site "hello" "posts" true none w).1.status = "success"
      ∧ (contentListOf
            (list_content env site none
              (create_post env site "hello" "posts" true none w).2).1).filter
          (fun q => pyEndsWith q "hello.md") = ["posts/hello.md"]
      ∧ ((fileGet (create_post env site "hello" "posts" true none w).2
            "content/posts/hello.md").map draftMark) = some (some true)
      ∧ (create_post env site "hello" "posts" false none
            (create_post env site "hello" "posts" true none w).2).1.status
          = "success"
      ∧ ((fileGet (create_post env site "hello" "posts" false none
              (create_post env site "hello" "posts" true none w).2).2
            "content/posts/hello.md").map draftMark) = some (some false)
      ∧ (contentListOf
            (list_content env site none
              (create_post env site "hello" "posts" false none
                (create_post env site "hello" "posts" true none w).2).2).1).filter
          (fun q => pyEndsWith q "hello.md") = ["posts/hello.md"] := by
  intro env w site hdir hw hA hB
  have hpt : pyReplace hugoArchetype "draft: false" "draft: true"
      = hugoArchetype := by decide
  have hpf : pyReplace hugoArchetype "draft: true" "draft: false"
      = hugoArchetypeDone := by decide
  have h1 : create_post env site "hello" "posts" true none w =
      (⟨"success", none,
        [("file", .vs "content/posts/hello.md"), ("draft", .vb true)]⟩,
       { cwd := site,
         effects := w.effects ++ [.chdirE site]
           ++ [.runCmdE ["hugo", "new", "posts/hello.md"]]
           ++ [.writeFileE "content/posts/hello.md"],
         files := [("content/posts/hello.md", hugoArchetype)],
         configToml := w.configToml, hugoToml := w.hugoToml,
         configYaml := w.configYaml, hugoYaml := w.hugoYaml,
         goMod := w.goMod, running := w.running }) := by
    simp [create_post, hdir, chdirW, fileGet, hw, hA, assocSet, hpt]
  rw [h1]
  have h2 : create_post env site "hello" "posts" false none
      ({ cwd := site,
         effects := w.effects ++ [.chdirE site]
           ++ [.runCmdE ["hugo", "new", "posts/hello.md"]]
           ++ [.writeFileE "content/posts/hello.md"],
         files := [("content/posts/hello.md", hugoArchetype)],
         configToml := w.configToml, hugoToml := w.hugoToml,
         configYaml := w.configYaml, hugoYaml := w.hugoYaml,
         goMod := w.goMod, running := w.running } : World) =
      (⟨"success", none,
        [("file", .vs "content/posts/hello.md"), ("draft", .vb false)]⟩,
       { cwd := site,
         effects := (w.effects ++ [.chdirE site]
             ++ [.runCmdE ["hugo", "new", "posts/hello.md"]]
             ++ [.writeFileE "content/posts/hello.md"])
           ++ [.chdirE site]
           ++ [.runCmdE ["hugo", "new", "posts/hello.md"]]
           ++ [.writeFileE "content/posts/hello.md"],
         files := [("content/posts/hello.md", hugoArchetypeDone)],
         configToml := w.configToml, hugoToml := w.hugoToml,
         configYaml := w.configYaml, hugoYaml := w.hugoYaml,
         goMod := w.goMod, running := w.running }) := by
    simp [create_post, hdir, chdirW, fileGet, hB, assocSet, hpf]
  rw [h2]
  have hlist : ∀ (wx : World),
      wx.files = [("content/posts/hello.md", hugoArchetype)]
        ∨ wx.files = [("content/posts/hello.md", hugoArchetypeDone)] →
      (list_content env site none wx).1 =
        ⟨"success", none, [("content", .vstrs ["posts/hello.md"])]⟩ := by
    intro wx hx
    have hsw : pyStartsWith "content/posts/hello.md" "content/" = true := by
      decide
    rcases hx with hx | hx
    · simp [list_content, hdir, chdirW, hx, hsw]
      try decide
    · simp [list_content, hdir, chdirW, hx, hsw]
      try decide
  refine ⟨rfl, ?_, ?_, rfl, ?_, ?_⟩
  · rw [hlist _ (Or.inl rfl)]
    decide
  · simp [fileGet]
    decide
  · simp [fileGet]
    decide
  · rw [hlist _ (Or.inr rfl)]
    decide

/-- C4, witness: the scenario at the concrete round-trip environment. -/
theorem claim4_witness :
    (create_post roundTripEnv "/s" "hello" "posts" true none {}).1.status
        = "success"
      ∧ (contentListOf
            (list_content roundTripEnv "/s" none
              (create_post roundTripEnv "/s" "hello" "posts" true none
                {}).2).1).filter
          (fun q => pyEndsWith q "hello.md") = ["posts/hello.md"]
      ∧ ((fileGet (create_post roundTripEnv "/s" "hello" "posts" true none
            {}).2 "content/posts/hello.md").map draftMark) = some (some true)
      ∧ (create_post roundTripEnv "/s" "hello" "posts" false none
            (create_post roundTripEnv "/s" "hello" "posts" true none
              {}).2).1.status = "success"
      ∧ ((fileGet (create_post roundTripEnv "/s" "hello" "posts" false none
              (create_post roundTripEnv "/s" "hello" "posts" true none
                {}).2).2 "content/posts/hello.md").map draftMark)
          = some (some false)
      ∧ (contentListOf
            (list_content roundTripEnv "/s" none
              (create_post roundTripEnv "/s" "hello" "posts" false none
                (create_post roundTripEnv "/s" "hello" "posts" true none
                  {}).2).2).1).filter
          (fun q => pyEndsWith q "hello.md") = ["posts/hello.md"] :=
  claim4_draft_roundtrip roundTripEnv {} "/s" rfl rfl rfl (fun _ => rfl)

theorem yamlModuleInstall_le_one (c : YamlCfg) (url : String)
    (h : c.imports.count url ≤ 1) :
    (yamlModuleInstall c url).imports.count url ≤ 1 := by
  by_cases hm : url ∈ c.imports
  · rw [yamlModuleInstall_stable c url hm]
    exact h
  · exact le_of_eq
      (yamlModuleInstall_once c url (List.count_eq_zero.mpr hm)).2

/-- C5, counterexample: when the TOML config already contains a
`[module]` section (here: one left by a previous, different install),
the module branch adds no import entry at all — checking only for the
`[module]` substring, not for this URL's entry — so two successive
installs of the same theme leave zero entries for its URL, not exactly
one. -/
theorem claim5_counterexample :
    (install_theme defaultEnv "/s" "ananke" "github.com/theme/ananke" true
        moduleSectionWorld).1.status = "success"
      ∧ (install_theme defaultEnv "/s" "ananke" "github.com/theme/ananke" true
          (install_theme defaultEnv "/s" "ananke" "github.com/theme/ananke"
            true moduleSectionWorld).2).1.status = "success"
      ∧ ((install_theme defaultEnv "/s" "ananke" "github.com/theme/ananke" true
          (install_theme defaultEnv "/s" "ananke" "github.com/theme/ananke"
            true moduleSectionWorld).2).2.configToml.map
            (countTomlImports · "github.com/theme/ananke")) = some 0 := by
  decide

/-- C5, amended: starting from a TOML configuration with no `[module]`
section and no entry for the URL (a fresh site), two successive
module-strategy installs of the same theme leave exactly one import
entry for its URL; likewise a YAML configuration with no prior entry
ends with exactly one.  When a `[module]` section already exists the
TOML branch adds no entry at all (see the counterexample) — in no case
does the second call add a duplicate. -/
theorem claim5_module_idempotent_amended :
    ∀ env site name url w L o1 e1 o2 e2,
      env.isDir site = true →
      env.run ["hugo", "mod", "init", "github.com/" ++ pyBasenameNorm site]
        = .ok o1 e1 →
      env.run ["hugo", "mod", "get", url] = .ok o2 e2 →
      w.configToml = some L →
      tomlHasModule L = false →
      countTomlImports L url = 0 →
      UrlOk url →
      (install_theme env site name url true w).1.status = "success"
      ∧ (install_theme env site name url true
           (install_theme env site name url true w).2).1.status = "success"
      ∧ ((install_theme env site name url true
           (install_theme env site name url true w).2).2.configToml.map
            (countTomlImports · url)) = some 1
      ∧ (∀ c, w.configYaml = some c → c.imports.count url = 0 →
          ((install_theme env site name url true
             (install_theme env site name url true w).2).2.configYaml.map
              (fun cc => cc.imports.count url)) = some 1) := by
  intro env site name url w L o1 e1 o2 e2 hdir hinit hget hct hm h0 hu
  obtain ⟨hs1, hc1, hy1, hg1⟩ :=
    install_theme_module_shape env site name url w o1 e1 o2 e2 hdir hinit hget
  obtain ⟨hs2, hc2, hy2, hg2⟩ :=
    install_theme_module_shape env site name url
      (install_theme env site name url true w).2 o1 e1 o2 e2 hdir hinit hget
  refine ⟨by rw [hs1], by rw [hs2], ?_, ?_⟩
  · rw [hc2, hc1, hct]
    simp [tomlModuleInstall_twice L url hm h0 hu]
  · intro c hyc h0c
    rw [hy2, hy1, hyc]
    obtain ⟨him, hcnt⟩ := yamlModuleInstall_once c url h0c
    have hmem : url ∈ (yamlModuleInstall c url).imports := by
      rw [him]
      exact List.mem_append_right _ (List.mem_singleton.mpr rfl)
    simp [yamlModuleInstall_stable _ url hmem, hcnt]

/-- C5, witness for the amended theorem: a fresh default configuration
and a concrete URL. -/
theorem claim5_witness :
    (install_theme defaultEnv "/s" "ananke" "github.com/theme/ananke" true
        freshConfigWorld).1.status = "success"
      ∧ (install_theme defaultEnv "/s" "ananke" "github.com/theme/ananke" true
          (install_theme defaultEnv "/s" "ananke" "github.com/theme/ananke"
            true freshConfigWorld).2).1.status = "success"
      ∧ ((install_theme defaultEnv "/s" "ananke" "github.com/theme/ananke" true
          (install_theme defaultEnv "/s" "ananke" "github.com/theme/ananke"
            true freshConfigWorld).2).2.configToml.map
            (countTomlImports · "github.com/theme/ananke")) = some 1
      ∧ (∀ c, freshConfigWorld.configYaml = some c →
          c.imports.count "github.com/theme/ananke" = 0 →
          ((install_theme defaultEnv "/s" "ananke" "github.com/theme/ananke"
              true
              (install_theme defaultEnv "/s" "ananke" "github.com/theme/ananke"
                true freshConfigWorld).2).2.configYaml.map
              (fun cc => cc.imports.count "github.com/theme/ananke"))
            = some 1) :=
  claim5_module_idempotent_amended defaultEnv "/s" "ananke"
    "github.com/theme/ananke" freshConfigWorld
    ["baseURL = \"https://example.org/\""] "" "" "" "" rfl rfl rfl rfl
    (by decide) (by decide) (by decide)

/-- C8, counterexample: a successful submodule-strategy install against
a TOML config whose only occurrence of `theme = ` is inside a comment
rewrites nothing — the replace branch fires on the substring check but
no line is an assignment — leaving zero `theme = ` assignments instead
of exactly one. -/
theorem claim8_counterexample :
    (install_theme defaultEnv "/s" "paper" "https://github.com/x/paper.git"
        false commentedThemeWorld).1.status = "success"
      ∧ ((install_theme defaultEnv "/s" "paper" "https://github.com/x/paper.git"
          false commentedThemeWorld).2.configToml.map themeAssignLines)
          = some [] := by
  decide

/-- C8, amended: after a successful `install_theme`, provided the prior
configuration is well formed — `theme = ` occurs in the TOML text only
as at most one actual assignment line, import entries for the URL
number at most one and only occur alongside a `[module]` section — the
rewritten configuration is internally consistent: the submodule
strategy leaves exactly one `theme = ` assignment (naming the
installed theme) in the TOML config and sets the single YAML `theme`
key; the module strategy leaves no `theme = ` assignment and at most
one import entry for the theme's URL in either format. -/
theorem claim8_config_consistency_amended :
    (∀ env site name url w L c o e,
       env.isDir site = true →
       env.run ["git", "submodule", "add", url, "themes/" ++ name] = .ok o e →
       w.configToml = some L → w.configYaml = some c →
       pyStartsWith (pyStrip (tomlThemeLine name)) "theme = " = true →
       (tomlHasThemeSub L = true → ∃ a, themeAssignLines L = [a]) →
       (install_theme env site name url false w).1.status = "success"
       ∧ ((install_theme env site name url false w).2.configToml.map
            themeAssignLines) = some [tomlThemeLine name]
       ∧ ((install_theme env site name url false w).2.configYaml.map
            YamlCfg.theme) = some (some name))
    ∧ (∀ env site name url w L c o1 e1 o2 e2,
        env.isDir site = true →
        env.run ["hugo", "mod", "init", "github.com/" ++ pyBasenameNorm site]
          = .ok o1 e1 →
        env.run ["hugo", "mod", "get", url] = .ok o2 e2 →
        w.configToml = some L → w.configYaml = some c →
        UrlOk url →
        countTomlImports L url ≤ 1 →
        (tomlHasModule L = false → countTomlImports L url = 0) →
        c.imports.count url ≤ 1 →
        (install_theme env site name url true w).1.status = "success"
        ∧ ((install_theme env site name url true w).2.configToml.map
             themeAssignLines) = some []
        ∧ (((install_theme env site name url true w).2.configToml.map
             (countTomlImports · url)).getD 0) ≤ 1
        ∧ ((install_theme env site name url true w).2.configYaml.map
             YamlCfg.theme) = some none
        ∧ (((install_theme env site name url true w).2.configYaml.map
             (fun cc => cc.imports.count url)).getD 0) ≤ 1) := by
  constructor
  · intro env site name url w L c o e hdir hadd hct hyc hn hone
    obtain ⟨hs, hc, hy⟩ :=
      install_theme_submodule_shape env site name url w o e hdir hadd
    refine ⟨by rw [hs], ?_, ?_⟩
    · rw [hc, hct]
      simp [tomlSubmoduleInstall_assign L name hn hone]
    · rw [hy, hyc]
      simp [yamlSubmoduleInstall]
  · intro env site name url w L c o1 e1 o2 e2 hdir hinit hget hct hyc hu
      h1 h2 hyco
    obtain ⟨hs, hc, hy, hg⟩ :=
      install_theme_module_shape env site name url w o1 e1 o2 e2 hdir hinit
        hget
    refine ⟨by rw [hs], ?_, ?_, ?_, ?_⟩
    · rw [hc, hct]
      simp [tomlModuleInstall_no_theme L url hu]
    · rw [hc, hct]
      simpa using tomlModuleInstall_le_one L url hu h1 h2
    · rw [hy, hyc]
      simp [yamlModuleInstall]
    · rw [hy, hyc]
      simpa using yamlModuleInstall_le_one c url hyco

/-- C8, witness: the submodule strategy replacing an existing
assignment, and the module strategy on a fresh configuration. -/
theorem claim8_witness :
    ((install_theme defaultEnv "/s" "paper" "https://github.com/x/paper.git"
        false themedConfigWorld).1.status = "success"
      ∧ ((install_theme defaultEnv "/s" "paper"
          "https://github.com/x/paper.git" false
          themedConfigWorld).2.configToml.map themeAssignLines)
          = some [tomlThemeLine "paper"]
      ∧ ((install_theme defaultEnv "/s" "paper"
          "https://github.com/x/paper.git" false
          themedConfigWorld).2.configYaml.map YamlCfg.theme)
          = some (some "paper"))
    ∧ ((install_theme defaultEnv "/s" "ananke" "github.com/theme/ananke" true
        freshConfigWorld).1.status = "success"
      ∧ ((install_theme defaultEnv "/s" "ananke" "github.com/theme/ananke"
          true freshConfigWorld).2.configToml.map themeAssignLines) = some []
      ∧ (((install_theme defaultEnv "/s" "ananke" "github.com/theme/ananke"
          true freshConfigWorld).2.configToml.map
            (countTomlImports · "github.com/theme/ananke")).getD 0) ≤ 1
      ∧ ((install_theme defaultEnv "/s" "ananke" "github.com/theme/ananke"
          true freshConfigWorld).2.configYaml.map YamlCfg.theme) = some none
      ∧ (((install_theme defaultEnv "/s" "ananke" "github.com/theme/ananke"
          true freshConfigWorld).2.configYaml.map
            (fun cc => cc.imports.count "github.com/theme/ananke")).getD 0)
          ≤ 1) :=
  ⟨claim8_config_consistency_amended.1 defaultEnv "/s" "paper"
     "https://github.com/x/paper.git" themedConfigWorld
     ["baseURL = \"https://example.org/\"", "theme = \"old\""]
     { theme := some "old" } "" "" rfl rfl rfl rfl (by decide)
     (fun _ => ⟨"theme = \"old\"", by decide⟩),
   claim8_config_consistency_amended.2 defaultEnv "/s" "ananke"
     "github.com/theme/ananke" freshConfigWorld
     ["baseURL = \"https://example.org/\""] {} "" "" "" "" rfl rfl rfl rfl
     rfl (by decide) (by decide) (by decide) (by decide)⟩

end HugoMcp
